import Mathlib

/-!
Shallow embedding of the RestAPIRelayPlugin transport plugin
(src/service/restRelayPlugin.ts) and proofs about its token-lifecycle
and send-retry behaviour.

The external world (auth health endpoint, auth token endpoint, destination
endpoint) is modelled as three oracles indexed by how many calls of that
kind were issued so far.  Each plugin method is a state-passing function:
the state carries the three call counters, the token cache entry for the
configured username, and an event trace recording every observable side
effect (HTTP calls, delays, cache writes, log lines, APM transaction and
span boundaries).  A thrown JS error is an Except.error carrying the error
message; resolution is Except.ok.
-/

namespace RestRelay

/-- Headers attached to a destination POST by sendData.makeRequest. -/
structure Headers where
  authorization : String
  contentType : Option String
deriving Repr, DecidableEq

/-- A relay payload: a text string or a raw byte sequence (Uint8Array). -/
inductive Payload
  | str (s : String)
  | bytes (b : List Nat)
deriving Repr, DecidableEq

/-- True exactly when the payload is a text string (typeof payload === string). -/
def Payload.isString : Payload → Bool
  | .str _ => true
  | .bytes _ => false

/-- Observable events, in program order. -/
inductive Event
  | healthGet
  | tokenPost
  | sendPost (headers : Headers)
  | logInfo (msg : String)
  | logError (msg : String)
  | txStart
  | spanStart
  | spanEnd
  | txEnd
  | delay (ms : Nat)
  | cacheSet (v : String)
deriving Repr, DecidableEq

/-- The validated configuration object (config.ts ExtendedConfig). -/
structure Config where
  RETRY_ATTEMPTS : Nat
  MAX_SOCKETS : Nat
  AUTH_HEALTH_URL : String
  AUTH_TOKEN_URL : String
  DESTINATION_TRANSPORT_URL : String
  AUTH_USERNAME : String
  AUTH_PASSWORD : String

/-- Behaviour of the three external HTTP endpoints: the nth GET of the
health URL, the nth POST of the token URL, the nth POST of the destination
URL either throws (error message) or resolves (health and destination:
response status; token: response data, none or some string, where a JS
falsy body is none or the empty string). -/
structure World where
  health : Nat → Except String Nat
  token : Nat → Except String (Option String)
  send : Nat → Except String Nat

/-- Plugin-side mutable state threaded through a run. -/
structure St where
  nHealth : Nat
  nToken : Nat
  nSend : Nat
  cache : Option String
  trace : List Event
deriving Repr

/-- Initial state with a given cache entry under the username key. -/
def mkSt (cache : Option String) : St :=
  { nHealth := 0, nToken := 0, nSend := 0, cache := cache, trace := [] }

/-- JS truthiness of a token response body. -/
def truthy : Option String → Bool
  | none => false
  | some s => s != ""

/-- Append one event to the trace. -/
def push (s : St) (e : Event) : St := { s with trace := s.trace ++ [e] }

/-- loggerService?.log — a no-op when no logger was supplied. -/
def logL (lg : Bool) (m : String) (s : St) : St :=
  if lg then push s (.logInfo m) else s

/-- loggerService?.error — a no-op when no logger was supplied. -/
def logE (lg : Bool) (m : String) (s : St) : St :=
  if lg then push s (.logError m) else s

/-- await axios.get(AUTH_HEALTH_URL). -/
def healthGet (w : World) (s : St) : Except String Nat × St :=
  (w.health s.nHealth,
   { s with nHealth := s.nHealth + 1, trace := s.trace ++ [Event.healthGet] })

/-- await axios.post(AUTH_TOKEN_URL, credentials). -/
def tokenPost (w : World) (s : St) : Except String (Option String) × St :=
  (w.token s.nToken,
   { s with nToken := s.nToken + 1, trace := s.trace ++ [Event.tokenPost] })

/-- await axios.post(DESTINATION_TRANSPORT_URL, payload, options). -/
def sendPost (w : World) (h : Headers) (s : St) : Except String Nat × St :=
  (w.send s.nSend,
   { s with nSend := s.nSend + 1, trace := s.trace ++ [Event.sendPost h] })

/-- cache.set(AUTH_USERNAME, v). -/
def cacheSet (v : String) (s : St) : St :=
  { s with cache := some v, trace := s.trace ++ [Event.cacheSet v] }

/-- await setTimeout(ms). -/
def sleep (ms : Nat) (s : St) : St := push s (.delay ms)

/-- apm?.startTransaction — null transaction when no tracer was supplied. -/
def startTx (tr : Bool) (s : St) : St := if tr then push s .txStart else s

/-- apm?.startSpan. -/
def startSp (tr : Bool) (s : St) : St := if tr then push s .spanStart else s

/-- span?.end(). -/
def endSp (tr : Bool) (s : St) : St := if tr then push s .spanEnd else s

/-- finally: if (apmTransaction) apmTransaction.end(). -/
def endTx (tr : Bool) (s : St) : St := if tr then push s .txEnd else s

/-- The retry loop of fetchToken, structurally recursive on the remaining
attempts (for i in 0..RETRY_ATTEMPTS-1).  On exhaustion it throws the
fatal fetch error; per attempt a thrown POST or falsy body is logged and
followed by the 5000 ms delay, a truthy body is cached and returned. -/
def fetchTokenLoop (cfg : Config) (w : World) (lg : Bool) : Nat → St → Except String String × St
  | 0, s => (Except.error "Failed to fetch token after multiple attempts", s)
  | n+1, s =>
    let (res, s) := tokenPost w s
    match res with
    | Except.ok d =>
      if truthy d then
        let tok := d.getD ""
        let s := cacheSet tok s
        (Except.ok tok, s)
      else
        let s := logE lg "Invalid token response" s
        let s := sleep 5000 s
        fetchTokenLoop cfg w lg n s
    | Except.error _ =>
      let s := logE lg "Error fetching token" s
      let s := sleep 5000 s
      fetchTokenLoop cfg w lg n s

/-- private async fetchToken(). -/
def fetchToken (cfg : Config) (w : World) (lg : Bool) (s : St) : Except String String × St :=
  fetchTokenLoop cfg w lg cfg.RETRY_ATTEMPTS s

/-- The retry loop of init (for i in 0..RETRY_ATTEMPTS-1).  Returns
Except.ok isHealthy when the loop runs to completion or breaks, and
Except.error when a health GET or the token POST throws (awaits are not
wrapped in try/catch inside init). -/
def initLoop (cfg : Config) (w : World) (lg : Bool) : Nat → St → Except String Bool × St
  | 0, s => (Except.ok false, s)
  | n+1, s =>
    let (res, s) := healthGet w s
    match res with
    | Except.error e => (Except.error e, s)
    | Except.ok status =>
      if status ≠ 200 then
        let s := logL lg "Health check failed,trying again" s
        let s := sleep 500 s
        initLoop cfg w lg n s
      else
        let (tres, s) := tokenPost w s
        match tres with
        | Except.error e => (Except.error e, s)
        | Except.ok d =>
          if truthy d then
            let s := cacheSet (d.getD "") s
            (Except.ok true, s)
          else
            let s := logE lg "Token response is invalid" s
            initLoop cfg w lg n s

/-- async init(loggerService?, apm?). -/
def init (cfg : Config) (w : World) (lg : Bool) (s : St) : Except String Unit × St :=
  let s := logL lg "init() called, fetching auth token" s
  match initLoop cfg w lg cfg.RETRY_ATTEMPTS s with
  | (Except.error e, s) => (Except.error e, s)
  | (Except.ok isHealthy, s) =>
    if isHealthy then (Except.ok (), s)
    else
      let s := logE lg "Failed to initialize RestAPIRelayPlugin after multiple attempts" s
      (Except.error "Initialization failed: Unable to fetch a valid token", s)

/-- Headers built by the makeRequest closure of sendData: always the
bearer Authorization header, plus a JSON Content-Type exactly when the
payload is a string. -/
def requestHeaders (payload : Payload) (authToken : String) : Headers :=
  { authorization := "Bearer " ++ authToken,
    contentType := if payload.isString then some "application/json" else none }

/-- const makeRequest = async (authToken) => axios.post(destination, payload, ...). -/
def makeRequest (w : World) (payload : Payload) (authToken : String) (s : St) :
    Except String Nat × St :=
  sendPost w (requestHeaders payload authToken) s

/-- private async sendData(token, payload).  The try/catch wraps the first
request, the 401-triggered token re-fetch and the single retry request;
any thrown error is logged as a send failure and re-thrown. -/
def sendData (cfg : Config) (w : World) (lg : Bool) (token : String) (payload : Payload)
    (s : St) : Except String Unit × St :=
  let (res, s) := makeRequest w payload token s
  match res with
  | Except.ok status =>
    if status = 401 then
      let s := logL lg "Unauthorized access - token may be invalid" s
      match fetchToken cfg w lg s with
      | (Except.ok newToken, s) =>
        let (r2, s) := makeRequest w payload newToken s
        match r2 with
        | Except.ok _ => (Except.ok (), s)
        | Except.error e =>
          let s := logE lg "Failed to send data" s
          (Except.error e, s)
      | (Except.error e, s) =>
        let s := logE lg "Failed to send data" s
        (Except.error e, s)
    else
      (Except.ok (), s)
  | Except.error e =>
    let s := logE lg "Failed to send data" s
    (Except.error e, s)

/-- The try/catch/finally of relay once the token is resolved: start the
transaction and span, send, end the span only on success, log and re-throw
on error, and end the transaction in the finally step when it is non-null. -/
def relayBody (cfg : Config) (w : World) (lg tr : Bool) (token : String) (data : Payload)
    (s : St) : Except String Unit × St :=
  let s := startTx tr s
  let s := startSp tr s
  match sendData cfg w lg token data s with
  | (Except.ok _, s) =>
    let s := endSp tr s
    let s := endTx tr s
    (Except.ok (), s)
  | (Except.error e, s) =>
    let s := logE lg "Error relaying data" s
    let s := endTx tr s
    (Except.error e, s)

/-- async relay(data).  token ??= await fetchToken() runs before the
try block, so a fatal fetch failure on cache miss propagates with no
transaction started. -/
def relay (cfg : Config) (w : World) (lg tr : Bool) (data : Payload) (s : St) :
    Except String Unit × St :=
  let s := logL lg "Relaying data" s
  match s.cache with
  | some token => relayBody cfg w lg tr token data s
  | none =>
    match fetchToken cfg w lg s with
    | (Except.error e, s) => (Except.error e, s)
    | (Except.ok token, s) => relayBody cfg w lg tr token data s

/-- Recognises health GET events. -/
def isHealth : Event → Bool
  | .healthGet => true
  | _ => false

/-- Number of health GETs in a trace. -/
def countHealth (t : List Event) : Nat := (t.filter isHealth).length

/-- Recognises token POST events. -/
def isToken : Event → Bool
  | .tokenPost => true
  | _ => false

/-- Number of token POSTs in a trace. -/
def countToken (t : List Event) : Nat := (t.filter isToken).length

/-- Recognises destination POST events. -/
def isSend : Event → Bool
  | .sendPost _ => true
  | _ => false

/-- Number of destination POSTs in a trace. -/
def countSend (t : List Event) : Nat := (t.filter isSend).length

/-- Recognises transaction-start events. -/
def isTxStart : Event → Bool
  | .txStart => true
  | _ => false

/-- Number of transaction-start events in a trace. -/
def countTxStart (t : List Event) : Nat := (t.filter isTxStart).length

/-- Recognises transaction-end events. -/
def isTxEnd : Event → Bool
  | .txEnd => true
  | _ => false

/-- Number of transaction-end events in a trace. -/
def countTxEnd (t : List Event) : Nat := (t.filter isTxEnd).length

/-- Events visible to the external world: HTTP calls, delays and cache
writes, but not log lines nor transaction and span boundaries. -/
def isExternal : Event → Bool
  | .healthGet => true
  | .tokenPost => true
  | .sendPost _ => true
  | .delay _ => true
  | .cacheSet _ => true
  | _ => false

/-- External projection of a trace. -/
def externals (t : List Event) : List Event := t.filter isExternal


/-! Concrete configurations and worlds used in counterexamples and witnesses. -/

/-- Configuration with the retry budget of the concrete init scenario. -/
def cfgC2 : Config :=
  { RETRY_ATTEMPTS := 10, MAX_SOCKETS := 10,
    AUTH_HEALTH_URL := "http://auth-health", AUTH_TOKEN_URL := "http://auth-token",
    DESTINATION_TRANSPORT_URL := "http://destination",
    AUTH_USERNAME := "testuser", AUTH_PASSWORD := "testpass" }

/-- World of the concrete init scenario: health 500 once then 200, token
body null once then the string tok1. -/
def wC2 : World :=
  { health := fun i => if i = 0 then Except.ok 500 else Except.ok 200,
    token := fun i => if i = 0 then Except.ok none else Except.ok (some "tok1"),
    send := fun _ => Except.ok 200 }

/-- Same configuration with a retry budget of one. -/
def cfg1 : Config := { cfgC2 with RETRY_ATTEMPTS := 1 }

/-- World in which every token POST throws. -/
def wTokErr : World :=
  { health := fun _ => Except.ok 200,
    token := fun _ => Except.error "boom",
    send := fun _ => Except.ok 200 }

/-- World in which the destination answers 500 and never throws. -/
def wDest500 : World :=
  { health := fun _ => Except.ok 200,
    token := fun _ => Except.ok (some "tokA"),
    send := fun _ => Except.ok 500 }

/-- World of the 401-recovery scenario: destination 401 once then 200,
token POST succeeds. -/
def wC1 : World :=
  { health := fun _ => Except.ok 200,
    token := fun _ => Except.ok (some "fresh"),
    send := fun i => if i = 0 then Except.ok 401 else Except.ok 200 }

/-! Claim theorems, part A. -/

/-- Claim C2, counterexample: in the concrete scenario (retry budget 10,
health 500 once then 200, token body falsy once then tok1), init resolves
and caches tok1 with two token POSTs, but it issues three health GETs, not
two: the falsy-token continue re-enters the loop through another health
probe. -/
theorem claim_C2_counterexample :
    (init cfgC2 wC2 true (mkSt none)).1 = Except.ok () ∧
    countHealth (init cfgC2 wC2 true (mkSt none)).2.trace = 3 ∧
    ¬ countHealth (init cfgC2 wC2 true (mkSt none)).2.trace = 2 ∧
    countToken (init cfgC2 wC2 true (mkSt none)).2.trace = 2 ∧
    (init cfgC2 wC2 true (mkSt none)).2.cache = some "tok1" := by
  refine ⟨rfl, rfl, ?_, rfl, rfl⟩
  decide

/-- Claim C2, amended: the concrete scenario resolves successfully with
exactly three health GETs, exactly two token POSTs, and the cache entry
for the configured username set to tok1. -/
theorem claim_C2_amended :
    (init cfgC2 wC2 true (mkSt none)).1 = Except.ok () ∧
    countHealth (init cfgC2 wC2 true (mkSt none)).2.trace = 3 ∧
    countToken (init cfgC2 wC2 true (mkSt none)).2.trace = 2 ∧
    (init cfgC2 wC2 true (mkSt none)).2.cache = some "tok1" :=
  ⟨rfl, rfl, rfl, rfl⟩

/-- Claim C6, counterexample: with a tracer present, a relay call on a
cache miss whose token fetch fails fatally throws without ever starting or
ending the observability transaction, so the transaction is not ended
exactly once on every throwing call. -/
theorem claim_C6_counterexample :
    (relay cfg1 wTokErr true true (Payload.str "x") (mkSt none)).1 =
      Except.error "Failed to fetch token after multiple attempts" ∧
    countTxEnd (relay cfg1 wTokErr true true (Payload.str "x") (mkSt none)).2.trace = 0 ∧
    countTxStart (relay cfg1 wTokErr true true (Payload.str "x") (mkSt none)).2.trace = 0 :=
  ⟨rfl, rfl, rfl⟩

/-! Helper lemmas about traces and deltas. -/

/-- Truthy cache writes only. -/
def cacheDelta (d : List Event) : Prop :=
  ∀ v, Event.cacheSet v ∈ d → v ≠ ""

/-- Truthy cache writes only, and no transaction events. -/
def cleanDelta (d : List Event) : Prop :=
  cacheDelta d ∧ Event.txStart ∉ d ∧ Event.txEnd ∉ d

theorem cleanDelta_nil : cleanDelta [] := by simp [cleanDelta, cacheDelta]

theorem cleanDelta_append {a b : List Event} (ha : cleanDelta a) (hb : cleanDelta b) :
    cleanDelta (a ++ b) := by
  refine ⟨fun v hv => ?_, fun hv => ?_, fun hv => ?_⟩
  · rcases List.mem_append.mp hv with h | h
    · exact ha.1 v h
    · exact hb.1 v h
  · rcases List.mem_append.mp hv with h | h
    · exact ha.2.1 h
    · exact hb.2.1 h
  · rcases List.mem_append.mp hv with h | h
    · exact ha.2.2 h
    · exact hb.2.2 h

theorem cacheDelta_append {a b : List Event} (ha : cacheDelta a) (hb : cacheDelta b) :
    cacheDelta (a ++ b) := by
  intro v hv
  rcases List.mem_append.mp hv with h | h
  · exact ha v h
  · exact hb v h

theorem externals_append (a b : List Event) :
    externals (a ++ b) = externals a ++ externals b := by
  simp [externals]

theorem countToken_append (a b : List Event) :
    countToken (a ++ b) = countToken a + countToken b := by
  simp [countToken]

theorem countHealth_append (a b : List Event) :
    countHealth (a ++ b) = countHealth a + countHealth b := by
  simp [countHealth]

theorem countSend_append (a b : List Event) :
    countSend (a ++ b) = countSend a + countSend b := by
  simp [countSend]

theorem countTxStart_append (a b : List Event) :
    countTxStart (a ++ b) = countTxStart a + countTxStart b := by
  simp [countTxStart]

theorem countTxEnd_append (a b : List Event) :
    countTxEnd (a ++ b) = countTxEnd a + countTxEnd b := by
  simp [countTxEnd]

theorem length_filter_zero {p : Event → Bool} {d : List Event}
    (h : ∀ e ∈ d, p e = false) : (d.filter p).length = 0 := by
  induction d with
  | nil => rfl
  | cons e rest ih =>
    have he := h e (by simp)
    rw [List.filter_cons_of_neg]
    · exact ih (fun x hx => h x (by simp [hx]))
    · simp [he]

theorem countTxEnd_eq_zero {d : List Event} (h : Event.txEnd ∉ d) : countTxEnd d = 0 := by
  refine length_filter_zero (fun e he => ?_)
  cases e <;> first
    | rfl
    | exact absurd he h

theorem countTxStart_eq_zero {d : List Event} (h : Event.txStart ∉ d) : countTxStart d = 0 := by
  refine length_filter_zero (fun e he => ?_)
  cases e <;> first
    | rfl
    | exact absurd he h

/-- State after one non-returning fetchToken attempt: the POST event, the
optional error log, and the 5000 ms delay. -/
def failState (lg : Bool) (m : String) (s : St) : St :=
  { s with
    nToken := s.nToken + 1,
    trace := s.trace ++ ([Event.tokenPost] ++
      ((if lg then [Event.logError m] else []) ++ [Event.delay 5000])) }

theorem fetchTokenLoop_succ_ok_truthy (cfg : Config) (w : World) (lg : Bool) (n : Nat) (s : St)
    (d : Option String) (h : w.token s.nToken = Except.ok d) (ht : truthy d = true) :
    fetchTokenLoop cfg w lg (n+1) s =
      (Except.ok (d.getD ""),
       { s with
         nToken := s.nToken + 1,
         cache := some (d.getD ""),
         trace := s.trace ++ [Event.tokenPost, Event.cacheSet (d.getD "")] }) := by
  simp [fetchTokenLoop, tokenPost, h, ht, cacheSet]

theorem fetchTokenLoop_succ_ok_falsy (cfg : Config) (w : World) (lg : Bool) (n : Nat) (s : St)
    (d : Option String) (h : w.token s.nToken = Except.ok d) (ht : ¬ truthy d = true) :
    fetchTokenLoop cfg w lg (n+1) s =
      fetchTokenLoop cfg w lg n (failState lg "Invalid token response" s) := by
  by_cases hlg : lg <;>
    simp [fetchTokenLoop, tokenPost, h, ht, logE, sleep, push, failState, hlg]

theorem fetchTokenLoop_succ_error (cfg : Config) (w : World) (lg : Bool) (n : Nat) (s : St)
    (e : String) (h : w.token s.nToken = Except.error e) :
    fetchTokenLoop cfg w lg (n+1) s =
      fetchTokenLoop cfg w lg n (failState lg "Error fetching token" s) := by
  by_cases hlg : lg <;>
    simp [fetchTokenLoop, tokenPost, h, logE, sleep, push, failState, hlg]

theorem failState_trace (lg : Bool) (m : String) (s : St) :
    (failState lg m s).trace = s.trace ++ ([Event.tokenPost] ++
      ((if lg then [Event.logError m] else []) ++ [Event.delay 5000])) := rfl

theorem failState_cache (lg : Bool) (m : String) (s : St) :
    (failState lg m s).cache = s.cache := rfl

/-- Every run of the fetchToken retry loop only appends events to the
trace, all cache writes in the appended delta are truthy, no transaction
events are appended, and the cache afterwards is either untouched or a
truthy token. -/
theorem fetchTokenLoop_delta (cfg : Config) (w : World) (lg : Bool) :
    ∀ (n : Nat) (s : St), ∃ d,
      (fetchTokenLoop cfg w lg n s).2.trace = s.trace ++ d ∧ cleanDelta d ∧
      ((fetchTokenLoop cfg w lg n s).2.cache = s.cache ∨
       ∃ v, (fetchTokenLoop cfg w lg n s).2.cache = some v ∧ v ≠ "") := by
  intro n
  induction n with
  | zero =>
    intro s
    exact ⟨[], by simp [fetchTokenLoop], cleanDelta_nil, Or.inl rfl⟩
  | succ n ih =>
    intro s
    cases h : w.token s.nToken with
    | ok d =>
      by_cases ht : truthy d = true
      · have hd : d.getD "" ≠ "" := by
          cases d with
          | none => simp [truthy] at ht
          | some v => simpa [truthy] using ht
        rw [fetchTokenLoop_succ_ok_truthy cfg w lg n s d h ht]
        refine ⟨[Event.tokenPost, Event.cacheSet (d.getD "")], rfl, ?_, ?_⟩
        · refine ⟨fun v hv => ?_, by simp, by simp⟩
          simp at hv
          subst hv
          exact hd
        · exact Or.inr ⟨d.getD "", rfl, hd⟩
      · rw [fetchTokenLoop_succ_ok_falsy cfg w lg n s d h ht]
        obtain ⟨d2, h1, h2, h3⟩ := ih (failState lg "Invalid token response" s)
        refine ⟨([Event.tokenPost] ++
            ((if lg then [Event.logError "Invalid token response"] else []) ++
              [Event.delay 5000])) ++ d2, ?_, cleanDelta_append ?_ h2, ?_⟩
        · rw [h1, failState_trace]
          simp
        · by_cases hlg : lg <;> simp [cleanDelta, cacheDelta, hlg]
        · rw [failState_cache] at h3
          exact h3
    | error e =>
      rw [fetchTokenLoop_succ_error cfg w lg n s e h]
      obtain ⟨d2, h1, h2, h3⟩ := ih (failState lg "Error fetching token" s)
      refine ⟨([Event.tokenPost] ++
          ((if lg then [Event.logError "Error fetching token"] else []) ++
            [Event.delay 5000])) ++ d2, ?_, cleanDelta_append ?_ h2, ?_⟩
      · rw [h1, failState_trace]
        simp
      · by_cases hlg : lg <;> simp [cleanDelta, cacheDelta, hlg]
      · rw [failState_cache] at h3
        exact h3

/-- The fatal error of fetchToken is the only error it can throw. -/
theorem fetchTokenLoop_error_msg (cfg : Config) (w : World) (lg : Bool) :
    ∀ (n : Nat) (s : St) (e : String),
      (fetchTokenLoop cfg w lg n s).1 = Except.error e →
      e = "Failed to fetch token after multiple attempts" := by
  intro n
  induction n with
  | zero =>
    intro s e he
    simp [fetchTokenLoop] at he
    exact he.symm
  | succ n ih =>
    intro s e he
    cases h : w.token s.nToken with
    | ok d =>
      by_cases ht : truthy d = true
      · rw [fetchTokenLoop_succ_ok_truthy cfg w lg n s d h ht] at he
        simp at he
      · rw [fetchTokenLoop_succ_ok_falsy cfg w lg n s d h ht] at he
        exact ih _ _ he
    | error e2 =>
      rw [fetchTokenLoop_succ_error cfg w lg n s e2 h] at he
      exact ih _ _ he

/-- State after one health-failed init attempt: the GET event, the optional
log line, and the 500 ms delay. -/
def healthFailState (lg : Bool) (s : St) : St :=
  { s with
    nHealth := s.nHealth + 1,
    trace := s.trace ++ ([Event.healthGet] ++
      ((if lg then [Event.logInfo "Health check failed,trying again"] else []) ++
        [Event.delay 500])) }

/-- State after one init attempt whose health probe succeeded but whose
token body was falsy: GET, POST and the optional error log, no delay. -/
def tokenInvalidState (lg : Bool) (s : St) : St :=
  { s with
    nHealth := s.nHealth + 1,
    nToken := s.nToken + 1,
    trace := s.trace ++ ([Event.healthGet] ++ ([Event.tokenPost] ++
      (if lg then [Event.logError "Token response is invalid"] else []))) }

theorem initLoop_succ_health_throw (cfg : Config) (w : World) (lg : Bool) (n : Nat) (s : St)
    (e : String) (h : w.health s.nHealth = Except.error e) :
    initLoop cfg w lg (n+1) s =
      (Except.error e,
       { s with
         nHealth := s.nHealth + 1,
         trace := s.trace ++ [Event.healthGet] }) := by
  simp [initLoop, healthGet, h]

theorem initLoop_succ_health_bad (cfg : Config) (w : World) (lg : Bool) (n : Nat) (s : St)
    (st : Nat) (h : w.health s.nHealth = Except.ok st) (hst : st ≠ 200) :
    initLoop cfg w lg (n+1) s = initLoop cfg w lg n (healthFailState lg s) := by
  by_cases hlg : lg <;>
    simp [initLoop, healthGet, h, hst, logL, sleep, push, healthFailState, hlg]

theorem initLoop_succ_token_throw (cfg : Config) (w : World) (lg : Bool) (n : Nat) (s : St)
    (e : String) (h : w.health s.nHealth = Except.ok 200)
    (h2 : w.token s.nToken = Except.error e) :
    initLoop cfg w lg (n+1) s =
      (Except.error e,
       { s with
         nHealth := s.nHealth + 1,
         nToken := s.nToken + 1,
         trace := s.trace ++ [Event.healthGet, Event.tokenPost] }) := by
  simp [initLoop, healthGet, tokenPost, h, h2]

theorem initLoop_succ_token_truthy (cfg : Config) (w : World) (lg : Bool) (n : Nat) (s : St)
    (d : Option String) (h : w.health s.nHealth = Except.ok 200)
    (h2 : w.token s.nToken = Except.ok d) (ht : truthy d = true) :
    initLoop cfg w lg (n+1) s =
      (Except.ok true,
       { s with
         nHealth := s.nHealth + 1,
         nToken := s.nToken + 1,
         cache := some (d.getD ""),
         trace := s.trace ++ [Event.healthGet, Event.tokenPost,
           Event.cacheSet (d.getD "")] }) := by
  simp [initLoop, healthGet, tokenPost, h, h2, ht, cacheSet]

theorem initLoop_succ_token_falsy (cfg : Config) (w : World) (lg : Bool) (n : Nat) (s : St)
    (d : Option String) (h : w.health s.nHealth = Except.ok 200)
    (h2 : w.token s.nToken = Except.ok d) (ht : ¬ truthy d = true) :
    initLoop cfg w lg (n+1) s = initLoop cfg w lg n (tokenInvalidState lg s) := by
  by_cases hlg : lg <;>
    simp [initLoop, healthGet, tokenPost, h, h2, ht, logE, push, tokenInvalidState, hlg]

theorem healthFailState_trace (lg : Bool) (s : St) :
    (healthFailState lg s).trace = s.trace ++ ([Event.healthGet] ++
      ((if lg then [Event.logInfo "Health check failed,trying again"] else []) ++
        [Event.delay 500])) := rfl

theorem healthFailState_cache (lg : Bool) (s : St) :
    (healthFailState lg s).cache = s.cache := rfl

theorem tokenInvalidState_trace (lg : Bool) (s : St) :
    (tokenInvalidState lg s).trace = s.trace ++ ([Event.healthGet] ++ ([Event.tokenPost] ++
      (if lg then [Event.logError "Token response is invalid"] else []))) := rfl

theorem tokenInvalidState_cache (lg : Bool) (s : St) :
    (tokenInvalidState lg s).cache = s.cache := rfl

/-- Every run of the init retry loop only appends events to the trace, all
cache writes appended are truthy, no transaction events are appended, and
the cache afterwards is either untouched or a truthy token. -/
theorem initLoop_delta (cfg : Config) (w : World) (lg : Bool) :
    ∀ (n : Nat) (s : St), ∃ d,
      (initLoop cfg w lg n s).2.trace = s.trace ++ d ∧ cleanDelta d ∧
      ((initLoop cfg w lg n s).2.cache = s.cache ∨
       ∃ v, (initLoop cfg w lg n s).2.cache = some v ∧ v ≠ "") := by
  intro n
  induction n with
  | zero =>
    intro s
    exact ⟨[], by simp [initLoop], cleanDelta_nil, Or.inl rfl⟩
  | succ n ih =>
    intro s
    cases h : w.health s.nHealth with
    | error e =>
      rw [initLoop_succ_health_throw cfg w lg n s e h]
      refine ⟨[Event.healthGet], rfl, ?_, Or.inl rfl⟩
      exact ⟨fun v hv => by simp at hv, by simp, by simp⟩
    | ok st =>
      by_cases hst : st = 200
      · subst hst
        cases h2 : w.token s.nToken with
        | error e =>
          rw [initLoop_succ_token_throw cfg w lg n s e h h2]
          refine ⟨[Event.healthGet, Event.tokenPost], rfl, ?_, Or.inl rfl⟩
          exact ⟨fun v hv => by simp at hv, by simp, by simp⟩
        | ok d =>
          by_cases ht : truthy d = true
          · have hd : d.getD "" ≠ "" := by
              cases d with
              | none => simp [truthy] at ht
              | some v => simpa [truthy] using ht
            rw [initLoop_succ_token_truthy cfg w lg n s d h h2 ht]
            refine ⟨[Event.healthGet, Event.tokenPost, Event.cacheSet (d.getD "")],
              rfl, ?_, Or.inr ⟨d.getD "", rfl, hd⟩⟩
            refine ⟨fun v hv => ?_, by simp, by simp⟩
            simp at hv
            subst hv
            exact hd
          · rw [initLoop_succ_token_falsy cfg w lg n s d h h2 ht]
            obtain ⟨d2, h1, h2x, h3⟩ := ih (tokenInvalidState lg s)
            refine ⟨([Event.healthGet] ++ ([Event.tokenPost] ++
                (if lg then [Event.logError "Token response is invalid"] else []))) ++ d2,
              ?_, cleanDelta_append ?_ h2x, ?_⟩
            · rw [h1, tokenInvalidState_trace]
              simp
            · by_cases hlg : lg <;> simp [cleanDelta, cacheDelta, hlg]
            · rw [tokenInvalidState_cache] at h3
              exact h3
      · rw [initLoop_succ_health_bad cfg w lg n s st h hst]
        obtain ⟨d2, h1, h2x, h3⟩ := ih (healthFailState lg s)
        refine ⟨([Event.healthGet] ++
            ((if lg then [Event.logInfo "Health check failed,trying again"] else []) ++
              [Event.delay 500])) ++ d2, ?_, cleanDelta_append ?_ h2x, ?_⟩
        · rw [h1, healthFailState_trace]
          simp
        · by_cases hlg : lg <;> simp [cleanDelta, cacheDelta, hlg]
        · rw [healthFailState_cache] at h3
          exact h3

/-- State after the first destination POST of sendData. -/
def afterReq1 (data : Payload) (tok : String) (s : St) : St :=
  { s with
    nSend := s.nSend + 1,
    trace := s.trace ++ [Event.sendPost (requestHeaders data tok)] }

/-- State on entry of the 401 recovery path of sendData. -/
def after401 (lg : Bool) (data : Payload) (tok : String) (s : St) : St :=
  logL lg "Unauthorized access - token may be invalid" (afterReq1 data tok s)

theorem logL_trace (lg : Bool) (m : String) (s : St) :
    (logL lg m s).trace = s.trace ++ (if lg then [Event.logInfo m] else []) := by
  by_cases hlg : lg <;> simp [logL, push, hlg]

theorem logL_cache (lg : Bool) (m : String) (s : St) : (logL lg m s).cache = s.cache := by
  by_cases hlg : lg <;> simp [logL, push, hlg]

theorem logE_trace (lg : Bool) (m : String) (s : St) :
    (logE lg m s).trace = s.trace ++ (if lg then [Event.logError m] else []) := by
  by_cases hlg : lg <;> simp [logE, push, hlg]

theorem logE_cache (lg : Bool) (m : String) (s : St) : (logE lg m s).cache = s.cache := by
  by_cases hlg : lg <;> simp [logE, push, hlg]

theorem afterReq1_trace (data : Payload) (tok : String) (s : St) :
    (afterReq1 data tok s).trace =
      s.trace ++ [Event.sendPost (requestHeaders data tok)] := rfl

theorem afterReq1_cache (data : Payload) (tok : String) (s : St) :
    (afterReq1 data tok s).cache = s.cache := rfl

theorem after401_trace (lg : Bool) (data : Payload) (tok : String) (s : St) :
    (after401 lg data tok s).trace = s.trace ++
      ([Event.sendPost (requestHeaders data tok)] ++
        (if lg then [Event.logInfo "Unauthorized access - token may be invalid"] else [])) := by
  by_cases hlg : lg <;> simp [after401, afterReq1, logL, push, hlg]

theorem after401_cache (lg : Bool) (data : Payload) (tok : String) (s : St) :
    (after401 lg data tok s).cache = s.cache := by
  by_cases hlg : lg <;> simp [after401, afterReq1, logL, push, hlg]

/-- fetchToken only appends truthy cache writes and no transaction events. -/
theorem fetchToken_delta (cfg : Config) (w : World) (lg : Bool) (s : St) :
    ∃ d, (fetchToken cfg w lg s).2.trace = s.trace ++ d ∧ cleanDelta d ∧
      ((fetchToken cfg w lg s).2.cache = s.cache ∨
       ∃ v, (fetchToken cfg w lg s).2.cache = some v ∧ v ≠ "") :=
  fetchTokenLoop_delta cfg w lg cfg.RETRY_ATTEMPTS s

/-- The only error fetchToken can throw is its fatal fetch error. -/
theorem fetchToken_error_msg (cfg : Config) (w : World) (lg : Bool) (s : St) (e : String)
    (h : (fetchToken cfg w lg s).1 = Except.error e) :
    e = "Failed to fetch token after multiple attempts" :=
  fetchTokenLoop_error_msg cfg w lg cfg.RETRY_ATTEMPTS s e h

theorem sendData_eq_throw (cfg : Config) (w : World) (lg : Bool) (tok : String)
    (data : Payload) (s : St) (e : String) (h : w.send s.nSend = Except.error e) :
    sendData cfg w lg tok data s =
      (Except.error e, logE lg "Failed to send data" (afterReq1 data tok s)) := by
  simp [sendData, makeRequest, sendPost, h, afterReq1]

theorem sendData_eq_ok (cfg : Config) (w : World) (lg : Bool) (tok : String)
    (data : Payload) (s : St) (status : Nat) (h : w.send s.nSend = Except.ok status)
    (h401 : status ≠ 401) :
    sendData cfg w lg tok data s = (Except.ok (), afterReq1 data tok s) := by
  simp [sendData, makeRequest, sendPost, h, h401, afterReq1]

theorem sendData_eq_401_fetchFail (cfg : Config) (w : World) (lg : Bool) (tok : String)
    (data : Payload) (s : St) (e : String) (h : w.send s.nSend = Except.ok 401)
    (hf : (fetchToken cfg w lg (after401 lg data tok s)).1 = Except.error e) :
    sendData cfg w lg tok data s =
      (Except.error e,
       logE lg "Failed to send data" (fetchToken cfg w lg (after401 lg data tok s)).2) := by
  rcases hfp : fetchToken cfg w lg (after401 lg data tok s) with ⟨fres, sf⟩
  rw [hfp] at hf
  simp only at hf
  subst hf
  simp only [after401, afterReq1] at hfp
  simp [sendData, makeRequest, sendPost, h, after401, afterReq1, hfp]

theorem sendData_eq_401_retry_ok (cfg : Config) (w : World) (lg : Bool) (tok : String)
    (data : Payload) (s : St) (newToken : String) (st2 : Nat)
    (h : w.send s.nSend = Except.ok 401)
    (hf : (fetchToken cfg w lg (after401 lg data tok s)).1 = Except.ok newToken)
    (h2 : w.send (fetchToken cfg w lg (after401 lg data tok s)).2.nSend = Except.ok st2) :
    sendData cfg w lg tok data s =
      (Except.ok (), afterReq1 data newToken (fetchToken cfg w lg (after401 lg data tok s)).2) := by
  rcases hfp : fetchToken cfg w lg (after401 lg data tok s) with ⟨fres, sf⟩
  rw [hfp] at hf h2
  simp only at hf h2
  subst hf
  simp only [after401, afterReq1] at hfp
  simp [sendData, makeRequest, sendPost, h, after401, afterReq1, hfp, h2]

theorem sendData_eq_401_retry_throw (cfg : Config) (w : World) (lg : Bool) (tok : String)
    (data : Payload) (s : St) (newToken : String) (e : String)
    (h : w.send s.nSend = Except.ok 401)
    (hf : (fetchToken cfg w lg (after401 lg data tok s)).1 = Except.ok newToken)
    (h2 : w.send (fetchToken cfg w lg (after401 lg data tok s)).2.nSend = Except.error e) :
    sendData cfg w lg tok data s =
      (Except.error e,
       logE lg "Failed to send data"
         (afterReq1 data newToken (fetchToken cfg w lg (after401 lg data tok s)).2)) := by
  rcases hfp : fetchToken cfg w lg (after401 lg data tok s) with ⟨fres, sf⟩
  rw [hfp] at hf h2
  simp only at hf h2
  subst hf
  simp only [after401, afterReq1] at hfp
  simp [sendData, makeRequest, sendPost, h, after401, afterReq1, hfp, h2]

/-- sendData only appends events, all appended cache writes are truthy, no
transaction events are appended, and the cache afterwards is either
untouched or a truthy token. -/
theorem sendData_delta (cfg : Config) (w : World) (lg : Bool) (tok : String)
    (data : Payload) (s : St) :
    ∃ d, (sendData cfg w lg tok data s).2.trace = s.trace ++ d ∧ cleanDelta d ∧
      ((sendData cfg w lg tok data s).2.cache = s.cache ∨
       ∃ v, (sendData cfg w lg tok data s).2.cache = some v ∧ v ≠ "") := by
  cases h : w.send s.nSend with
  | error e =>
    rw [sendData_eq_throw cfg w lg tok data s e h]
    refine ⟨[Event.sendPost (requestHeaders data tok)] ++
      (if lg then [Event.logError "Failed to send data"] else []), ?_, ?_, Or.inl ?_⟩
    · rw [logE_trace, afterReq1_trace]
      simp
    · by_cases hlg : lg <;> simp [cleanDelta, cacheDelta, hlg]
    · rw [logE_cache, afterReq1_cache]
  | ok status =>
    by_cases h401 : status = 401
    · subst h401
      obtain ⟨dF, hF1, hF2, hF3⟩ := fetchToken_delta cfg w lg (after401 lg data tok s)
      cases hf : (fetchToken cfg w lg (after401 lg data tok s)).1 with
      | error e =>
        rw [sendData_eq_401_fetchFail cfg w lg tok data s e h hf]
        refine ⟨([Event.sendPost (requestHeaders data tok)] ++
            (if lg then [Event.logInfo "Unauthorized access - token may be invalid"] else [])) ++
            (dF ++ (if lg then [Event.logError "Failed to send data"] else [])), ?_, ?_, ?_⟩
        · rw [logE_trace, hF1, after401_trace]
          simp
        · refine cleanDelta_append ?_ (cleanDelta_append hF2 ?_) <;>
            by_cases hlg : lg <;> simp [cleanDelta, cacheDelta, hlg]
        · rw [logE_cache]
          rw [after401_cache] at hF3
          exact hF3
      | ok newToken =>
        cases h2 : w.send (fetchToken cfg w lg (after401 lg data tok s)).2.nSend with
        | ok st2 =>
          rw [sendData_eq_401_retry_ok cfg w lg tok data s newToken st2 h hf h2]
          refine ⟨([Event.sendPost (requestHeaders data tok)] ++
              (if lg then [Event.logInfo "Unauthorized access - token may be invalid"] else [])) ++
              (dF ++ [Event.sendPost (requestHeaders data newToken)]), ?_, ?_, ?_⟩
          · rw [afterReq1_trace, hF1, after401_trace]
            simp
          · refine cleanDelta_append ?_ (cleanDelta_append hF2 ?_) <;>
              by_cases hlg : lg <;> simp [cleanDelta, cacheDelta, hlg]
          · rw [afterReq1_cache]
            rw [after401_cache] at hF3
            exact hF3
        | error e =>
          rw [sendData_eq_401_retry_throw cfg w lg tok data s newToken e h hf h2]
          refine ⟨([Event.sendPost (requestHeaders data tok)] ++
              (if lg then [Event.logInfo "Unauthorized access - token may be invalid"] else [])) ++
              (dF ++ ([Event.sendPost (requestHeaders data newToken)] ++
                (if lg then [Event.logError "Failed to send data"] else []))), ?_, ?_, ?_⟩
          · rw [logE_trace, afterReq1_trace, hF1, after401_trace]
            simp
          · refine cleanDelta_append ?_ (cleanDelta_append hF2 ?_) <;>
              by_cases hlg : lg <;> simp [cleanDelta, cacheDelta, hlg]
          · rw [logE_cache, afterReq1_cache]
            rw [after401_cache] at hF3
            exact hF3
    · rw [sendData_eq_ok cfg w lg tok data s status h h401]
      refine ⟨[Event.sendPost (requestHeaders data tok)], rfl, ?_, Or.inl rfl⟩
      exact ⟨fun v hv => by simp at hv, by simp, by simp⟩

theorem relayBody_eq_ok (cfg : Config) (w : World) (lg tr : Bool) (token : String)
    (data : Payload) (s : St)
    (h : (sendData cfg w lg token data (startSp tr (startTx tr s))).1 = Except.ok ()) :
    relayBody cfg w lg tr token data s =
      (Except.ok (),
       endTx tr (endSp tr (sendData cfg w lg token data (startSp tr (startTx tr s))).2)) := by
  rcases hsd : sendData cfg w lg token data (startSp tr (startTx tr s)) with ⟨r, s2⟩
  rw [hsd] at h
  simp only at h
  subst h
  simp [relayBody, hsd]

theorem relayBody_eq_err (cfg : Config) (w : World) (lg tr : Bool) (token : String)
    (data : Payload) (s : St) (e : String)
    (h : (sendData cfg w lg token data (startSp tr (startTx tr s))).1 = Except.error e) :
    relayBody cfg w lg tr token data s =
      (Except.error e,
       endTx tr (logE lg "Error relaying data"
         (sendData cfg w lg token data (startSp tr (startTx tr s))).2)) := by
  rcases hsd : sendData cfg w lg token data (startSp tr (startTx tr s)) with ⟨r, s2⟩
  rw [hsd] at h
  simp only at h
  subst h
  simp [relayBody, hsd]

theorem relay_eq_cacheHit (cfg : Config) (w : World) (lg tr : Bool) (data : Payload)
    (s : St) (token : String) (h : s.cache = some token) :
    relay cfg w lg tr data s =
      relayBody cfg w lg tr token data (logL lg "Relaying data" s) := by
  have hc : (logL lg "Relaying data" s).cache = some token := by rw [logL_cache, h]
  simp [relay, hc]

theorem relay_eq_missFetchFail (cfg : Config) (w : World) (lg tr : Bool) (data : Payload)
    (s : St) (e : String) (h : s.cache = none)
    (hf : (fetchToken cfg w lg (logL lg "Relaying data" s)).1 = Except.error e) :
    relay cfg w lg tr data s =
      (Except.error e, (fetchToken cfg w lg (logL lg "Relaying data" s)).2) := by
  have hc : (logL lg "Relaying data" s).cache = none := by rw [logL_cache, h]
  rcases hfp : fetchToken cfg w lg (logL lg "Relaying data" s) with ⟨fres, sf⟩
  rw [hfp] at hf
  simp only at hf
  subst hf
  simp [relay, hc, hfp]

theorem relay_eq_missFetchOk (cfg : Config) (w : World) (lg tr : Bool) (data : Payload)
    (s : St) (token : String) (h : s.cache = none)
    (hf : (fetchToken cfg w lg (logL lg "Relaying data" s)).1 = Except.ok token) :
    relay cfg w lg tr data s =
      relayBody cfg w lg tr token data (fetchToken cfg w lg (logL lg "Relaying data" s)).2 := by
  have hc : (logL lg "Relaying data" s).cache = none := by rw [logL_cache, h]
  rcases hfp : fetchToken cfg w lg (logL lg "Relaying data" s) with ⟨fres, sf⟩
  rw [hfp] at hf
  simp only at hf
  subst hf
  simp [relay, hc, hfp]

theorem startTx_trace (tr : Bool) (s : St) :
    (startTx tr s).trace = s.trace ++ (if tr then [Event.txStart] else []) := by
  by_cases htr : tr <;> simp [startTx, push, htr]

theorem startTx_cache (tr : Bool) (s : St) : (startTx tr s).cache = s.cache := by
  by_cases htr : tr <;> simp [startTx, push, htr]

theorem startSp_trace (tr : Bool) (s : St) :
    (startSp tr s).trace = s.trace ++ (if tr then [Event.spanStart] else []) := by
  by_cases htr : tr <;> simp [startSp, push, htr]

theorem startSp_cache (tr : Bool) (s : St) : (startSp tr s).cache = s.cache := by
  by_cases htr : tr <;> simp [startSp, push, htr]

theorem endSp_trace (tr : Bool) (s : St) :
    (endSp tr s).trace = s.trace ++ (if tr then [Event.spanEnd] else []) := by
  by_cases htr : tr <;> simp [endSp, push, htr]

theorem endSp_cache (tr : Bool) (s : St) : (endSp tr s).cache = s.cache := by
  by_cases htr : tr <;> simp [endSp, push, htr]

theorem endTx_trace (tr : Bool) (s : St) :
    (endTx tr s).trace = s.trace ++ (if tr then [Event.txEnd] else []) := by
  by_cases htr : tr <;> simp [endTx, push, htr]

theorem endTx_cache (tr : Bool) (s : St) : (endTx tr s).cache = s.cache := by
  by_cases htr : tr <;> simp [endTx, push, htr]

/-- init only appends events, all appended cache writes are truthy, no
transaction events are appended, and the cache afterwards is either
untouched or a truthy token. -/
theorem init_delta (cfg : Config) (w : World) (lg : Bool) (s : St) :
    ∃ d, (init cfg w lg s).2.trace = s.trace ++ d ∧ cleanDelta d ∧
      ((init cfg w lg s).2.cache = s.cache ∨
       ∃ v, (init cfg w lg s).2.cache = some v ∧ v ≠ "") := by
  obtain ⟨dL, h1, h2, h3⟩ := initLoop_delta cfg w lg cfg.RETRY_ATTEMPTS
    (logL lg "init() called, fetching auth token" s)
  rcases hil : initLoop cfg w lg cfg.RETRY_ATTEMPTS
      (logL lg "init() called, fetching auth token" s) with ⟨r, s2⟩
  rw [hil] at h1 h3
  simp only at h1 h3
  cases r with
  | error e =>
    have hstep : init cfg w lg s = (Except.error e, s2) := by simp [init, hil]
    rw [hstep]
    refine ⟨(if lg then [Event.logInfo "init() called, fetching auth token"] else []) ++ dL,
      ?_, cleanDelta_append ?_ h2, ?_⟩
    · rw [h1, logL_trace]
      simp
    · by_cases hlg : lg <;> simp [cleanDelta, cacheDelta, hlg]
    · rw [logL_cache] at h3
      exact h3
  | ok b =>
    cases b with
    | true =>
      have hstep : init cfg w lg s = (Except.ok (), s2) := by simp [init, hil]
      rw [hstep]
      refine ⟨(if lg then [Event.logInfo "init() called, fetching auth token"] else []) ++ dL,
        ?_, cleanDelta_append ?_ h2, ?_⟩
      · rw [h1, logL_trace]
        simp
      · by_cases hlg : lg <;> simp [cleanDelta, cacheDelta, hlg]
      · rw [logL_cache] at h3
        exact h3
    | false =>
      have hstep : init cfg w lg s =
          (Except.error "Initialization failed: Unable to fetch a valid token",
           logE lg "Failed to initialize RestAPIRelayPlugin after multiple attempts" s2) := by
        simp [init, hil]
      rw [hstep]
      refine ⟨(if lg then [Event.logInfo "init() called, fetching auth token"] else []) ++
        (dL ++ (if lg then
          [Event.logError "Failed to initialize RestAPIRelayPlugin after multiple attempts"]
          else [])), ?_, cleanDelta_append ?_ (cleanDelta_append h2 ?_), ?_⟩
      · rw [logE_trace, h1, logL_trace]
        simp
      · by_cases hlg : lg <;> simp [cleanDelta, cacheDelta, hlg]
      · by_cases hlg : lg <;> simp [cleanDelta, cacheDelta, hlg]
      · rw [logE_cache]
        rw [logL_cache] at h3
        exact h3

/-- relayBody only appends events and all appended cache writes are truthy;
the cache afterwards is either untouched or a truthy token. -/
theorem relayBody_delta (cfg : Config) (w : World) (lg tr : Bool) (token : String)
    (data : Payload) (s : St) :
    ∃ d, (relayBody cfg w lg tr token data s).2.trace = s.trace ++ d ∧ cacheDelta d ∧
      ((relayBody cfg w lg tr token data s).2.cache = s.cache ∨
       ∃ v, (relayBody cfg w lg tr token data s).2.cache = some v ∧ v ≠ "") := by
  obtain ⟨dS, hS1, hS2, hS3⟩ := sendData_delta cfg w lg token data (startSp tr (startTx tr s))
  have hpre : (startSp tr (startTx tr s)).trace =
      s.trace ++ ((if tr then [Event.txStart] else []) ++ (if tr then [Event.spanStart] else [])) := by
    rw [startSp_trace, startTx_trace]
    simp
  have hprec : (startSp tr (startTx tr s)).cache = s.cache := by
    rw [startSp_cache, startTx_cache]
  cases hsd : (sendData cfg w lg token data (startSp tr (startTx tr s))).1 with
  | ok u =>
    cases u
    rw [relayBody_eq_ok cfg w lg tr token data s hsd]
    refine ⟨((if tr then [Event.txStart] else []) ++ (if tr then [Event.spanStart] else [])) ++
      (dS ++ ((if tr then [Event.spanEnd] else []) ++ (if tr then [Event.txEnd] else []))),
      ?_, ?_, ?_⟩
    · rw [endTx_trace, endSp_trace, hS1, hpre]
      simp
    · refine cacheDelta_append ?_ (cacheDelta_append hS2.1 ?_) <;>
        by_cases htr : tr <;> simp [cacheDelta, htr]
    · rw [endTx_cache, endSp_cache]
      rw [hprec] at hS3
      exact hS3
  | error e =>
    rw [relayBody_eq_err cfg w lg tr token data s e hsd]
    refine ⟨((if tr then [Event.txStart] else []) ++ (if tr then [Event.spanStart] else [])) ++
      (dS ++ ((if lg then [Event.logError "Error relaying data"] else []) ++
        (if tr then [Event.txEnd] else []))), ?_, ?_, ?_⟩
    · rw [endTx_trace, logE_trace, hS1, hpre]
      simp
    · refine cacheDelta_append ?_ (cacheDelta_append hS2.1 ?_)
      · by_cases htr : tr <;> simp [cacheDelta, htr]
      · by_cases htr : tr <;> by_cases hlg : lg <;> simp [cacheDelta, htr, hlg]
    · rw [endTx_cache, logE_cache]
      rw [hprec] at hS3
      exact hS3

/-- relay only appends events and all appended cache writes are truthy;
the cache afterwards is either untouched or a truthy token. -/
theorem relay_delta (cfg : Config) (w : World) (lg tr : Bool) (data : Payload) (s : St) :
    ∃ d, (relay cfg w lg tr data s).2.trace = s.trace ++ d ∧ cacheDelta d ∧
      ((relay cfg w lg tr data s).2.cache = s.cache ∨
       ∃ v, (relay cfg w lg tr data s).2.cache = some v ∧ v ≠ "") := by
  cases hc : s.cache with
  | some token =>
    rw [relay_eq_cacheHit cfg w lg tr data s token hc]
    obtain ⟨dB, hB1, hB2, hB3⟩ := relayBody_delta cfg w lg tr token data
      (logL lg "Relaying data" s)
    refine ⟨(if lg then [Event.logInfo "Relaying data"] else []) ++ dB,
      ?_, cacheDelta_append ?_ hB2, ?_⟩
    · rw [hB1, logL_trace]
      simp
    · by_cases hlg : lg <;> simp [cacheDelta, hlg]
    · rw [logL_cache, hc] at hB3
      exact hB3
  | none =>
    obtain ⟨dF, hF1, hF2, hF3⟩ := fetchToken_delta cfg w lg (logL lg "Relaying data" s)
    cases hf : (fetchToken cfg w lg (logL lg "Relaying data" s)).1 with
    | error e =>
      rw [relay_eq_missFetchFail cfg w lg tr data s e hc hf]
      refine ⟨(if lg then [Event.logInfo "Relaying data"] else []) ++ dF,
        ?_, cacheDelta_append ?_ hF2.1, ?_⟩
      · rw [hF1, logL_trace]
        simp
      · by_cases hlg : lg <;> simp [cacheDelta, hlg]
      · rw [logL_cache, hc] at hF3
        exact hF3
    | ok token =>
      rw [relay_eq_missFetchOk cfg w lg tr data s token hc hf]
      obtain ⟨dB, hB1, hB2, hB3⟩ := relayBody_delta cfg w lg tr token data
        (fetchToken cfg w lg (logL lg "Relaying data" s)).2
      refine ⟨(if lg then [Event.logInfo "Relaying data"] else []) ++ (dF ++ dB),
        ?_, cacheDelta_append ?_ (cacheDelta_append hF2.1 hB2), ?_⟩
      · rw [hB1, hF1, logL_trace]
        simp
      · by_cases hlg : lg <;> simp [cacheDelta, hlg]
      · rcases hB3 with hB3 | hB3
        · rw [hB3]
          rw [logL_cache, hc] at hF3
          exact hF3
        · exact Or.inr hB3

/-- Token attempts that do not produce a token: a throw or a falsy body. -/
def failRes : Except String (Option String) → Bool
  | .error _ => true
  | .ok d => !(truthy d)

/-- Log message of a failed token attempt. -/
def failMsg : Except String (Option String) → String
  | .error _ => "Error fetching token"
  | .ok _ => "Invalid token response"

/-- Trace of n permanently failing fetchToken attempts starting at call
index start: each attempt is one POST, the optional log line, and the
5000 ms backoff before the next attempt. -/
def failTrace (lg : Bool) (w : World) (start : Nat) : Nat → List Event
  | 0 => []
  | n+1 =>
    ([Event.tokenPost] ++
      ((if lg then [Event.logError (failMsg (w.token start))] else []) ++
        [Event.delay 5000])) ++ failTrace lg w (start+1) n

/-- On a permanently failing token endpoint the fetchToken loop runs all
its attempts, produces exactly the per-attempt blocks of failTrace, and
throws the fatal fetch error. -/
theorem fetchTokenLoop_permFail (cfg : Config) (w : World) (lg : Bool)
    (hw : ∀ i, failRes (w.token i) = true) :
    ∀ (n : Nat) (s : St),
      fetchTokenLoop cfg w lg n s =
        (Except.error "Failed to fetch token after multiple attempts",
         { s with
           nToken := s.nToken + n,
           trace := s.trace ++ failTrace lg w s.nToken n }) := by
  intro n
  induction n with
  | zero =>
    intro s
    simp [fetchTokenLoop, failTrace]
  | succ n ih =>
    intro s
    cases h : w.token s.nToken with
    | ok d =>
      have ht : ¬ truthy d = true := by
        have hx := hw s.nToken
        rw [h] at hx
        simpa [failRes] using hx
      rw [fetchTokenLoop_succ_ok_falsy cfg w lg n s d h ht, ih]
      simp [failState, failTrace, failMsg, h, Nat.add_assoc, Nat.add_comm, Nat.add_left_comm]
    | error e =>
      rw [fetchTokenLoop_succ_error cfg w lg n s e h, ih]
      simp [failState, failTrace, failMsg, h, Nat.add_assoc, Nat.add_comm, Nat.add_left_comm]

/-- Health responses that resolve with a non-200 status. -/
def healthBad : Except String Nat → Bool
  | .ok st => st != 200
  | .error _ => false

/-- Trace of n failing health probes: each attempt is one GET, the
optional log line, and the 500 ms backoff. -/
def healthPermTrace (lg : Bool) : Nat → List Event
  | 0 => []
  | n+1 =>
    ([Event.healthGet] ++
      ((if lg then [Event.logInfo "Health check failed,trying again"] else []) ++
        [Event.delay 500])) ++ healthPermTrace lg n

/-- On a permanently unhealthy endpoint the init loop runs all its
attempts, produces exactly the per-attempt blocks of healthPermTrace, and
reports no success. -/
theorem initLoop_permFail (cfg : Config) (w : World) (lg : Bool)
    (hw : ∀ i, healthBad (w.health i) = true) :
    ∀ (n : Nat) (s : St),
      initLoop cfg w lg n s =
        (Except.ok false,
         { s with
           nHealth := s.nHealth + n,
           trace := s.trace ++ healthPermTrace lg n }) := by
  intro n
  induction n with
  | zero =>
    intro s
    simp [initLoop, healthPermTrace]
  | succ n ih =>
    intro s
    cases h : w.health s.nHealth with
    | error e =>
      have hx := hw s.nHealth
      rw [h] at hx
      simp [healthBad] at hx
    | ok st =>
      have hst : st ≠ 200 := by
        have hx := hw s.nHealth
        rw [h] at hx
        simpa [healthBad] using hx
      rw [initLoop_succ_health_bad cfg w lg n s st h hst, ih]
      simp [healthFailState, healthPermTrace, Nat.add_assoc, Nat.add_comm, Nat.add_left_comm]

/-- Token POST count of the permanent-failure trace. -/
theorem countToken_failTrace (lg : Bool) (w : World) :
    ∀ (n start : Nat), countToken (failTrace lg w start n) = n := by
  intro n
  induction n with
  | zero => intro start; rfl
  | succ n ih =>
    intro start
    rw [failTrace, countToken_append, ih]
    by_cases hlg : lg <;> simp [countToken, List.filter, isToken, hlg, Nat.add_comm]

/-- Health GET count of the health-failure trace. -/
theorem countHealth_healthPermTrace (lg : Bool) :
    ∀ (n : Nat), countHealth (healthPermTrace lg n) = n := by
  intro n
  induction n with
  | zero => rfl
  | succ n ih =>
    rw [healthPermTrace, countHealth_append, ih]
    by_cases hlg : lg <;> simp [countHealth, List.filter, isHealth, hlg, Nat.add_comm]

/-- No token POSTs occur in the health-failure trace. -/
theorem countToken_healthPermTrace (lg : Bool) :
    ∀ (n : Nat), countToken (healthPermTrace lg n) = 0 := by
  intro n
  induction n with
  | zero => rfl
  | succ n ih =>
    rw [healthPermTrace, countToken_append, ih]
    by_cases hlg : lg <;> simp [countToken, List.filter, isToken, hlg]

/-- World whose health endpoint always resolves 500. -/
def wHealth500 : World :=
  { health := fun _ => Except.ok 500,
    token := fun _ => Except.ok (some "tokH"),
    send := fun _ => Except.ok 200 }

/-- Claim C3: for every retry budget of at least one and every permanently
failing token endpoint (each attempt throws or resolves falsy), fetchToken
issues exactly RETRY_ATTEMPTS token POSTs whose trace is the per-attempt
blocks separated by the fixed 5000 ms backoff, then throws the fatal fetch
error; a relay call on a cache miss propagates that error without any
further token POST. -/
theorem claim_C3 (cfg : Config) (w : World) (lg tr : Bool) (data : Payload)
    (c : Option String) (hN : 1 ≤ cfg.RETRY_ATTEMPTS)
    (hw : ∀ i, failRes (w.token i) = true) :
    (fetchToken cfg w lg (mkSt c)).1 =
      Except.error "Failed to fetch token after multiple attempts" ∧
    countToken (fetchToken cfg w lg (mkSt c)).2.trace = cfg.RETRY_ATTEMPTS ∧
    (fetchToken cfg w lg (mkSt c)).2.trace = failTrace lg w 0 cfg.RETRY_ATTEMPTS ∧
    (relay cfg w lg tr data (mkSt none)).1 =
      Except.error "Failed to fetch token after multiple attempts" ∧
    countToken (relay cfg w lg tr data (mkSt none)).2.trace = cfg.RETRY_ATTEMPTS := by
  have hmain := fetchTokenLoop_permFail cfg w lg hw cfg.RETRY_ATTEMPTS (mkSt c)
  have h1 : (fetchToken cfg w lg (mkSt c)).1 =
      Except.error "Failed to fetch token after multiple attempts" := by
    rw [fetchToken, hmain]
  have h2 : (fetchToken cfg w lg (mkSt c)).2.trace = failTrace lg w 0 cfg.RETRY_ATTEMPTS := by
    rw [fetchToken, hmain]
    simp [mkSt]
  have hm2 := fetchTokenLoop_permFail cfg w lg hw cfg.RETRY_ATTEMPTS
    (logL lg "Relaying data" (mkSt none))
  have hffail : (fetchToken cfg w lg (logL lg "Relaying data" (mkSt none))).1 =
      Except.error "Failed to fetch token after multiple attempts" := by
    rw [fetchToken, hm2]
  have hrel := relay_eq_missFetchFail cfg w lg tr data (mkSt none)
    "Failed to fetch token after multiple attempts" rfl hffail
  have hz : countToken (logL lg "Relaying data" (mkSt none)).trace = 0 := by
    rw [logL_trace]
    by_cases hlg : lg <;> simp [countToken, List.filter, isToken, hlg, mkSt]
  refine ⟨h1, ?_, h2, ?_, ?_⟩
  · rw [h2, countToken_failTrace]
  · rw [hrel]
  · rw [hrel]
    show countToken (fetchToken cfg w lg (logL lg "Relaying data" (mkSt none))).2.trace =
      cfg.RETRY_ATTEMPTS
    rw [fetchToken, hm2]
    show countToken ((logL lg "Relaying data" (mkSt none)).trace ++
      failTrace lg w (logL lg "Relaying data" (mkSt none)).nToken cfg.RETRY_ATTEMPTS) =
      cfg.RETRY_ATTEMPTS
    rw [countToken_append, hz, countToken_failTrace]
    omega

/-- Witness for claim C3 at a concrete retry budget of one and a token
endpoint that always throws. -/
theorem claim_C3_witness :
    (1 ≤ cfg1.RETRY_ATTEMPTS) ∧
    (fetchToken cfg1 wTokErr true (mkSt none)).1 =
      Except.error "Failed to fetch token after multiple attempts" ∧
    countToken (relay cfg1 wTokErr true true (Payload.str "x") (mkSt none)).2.trace =
      cfg1.RETRY_ATTEMPTS :=
  ⟨by decide,
   (claim_C3 cfg1 wTokErr true true (Payload.str "x") none (by decide) (fun i => rfl)).1,
   (claim_C3 cfg1 wTokErr true true (Payload.str "x") none (by decide)
     (fun i => rfl)).2.2.2.2⟩

/-- Claim C4: for every retry budget of at least one, when every health
probe resolves with a non-200 status, init performs exactly RETRY_ATTEMPTS
health GETs, each followed by the 500 ms delay, issues no token POSTs, and
throws the fatal initialization error. -/
theorem claim_C4 (cfg : Config) (w : World) (lg : Bool) (c : Option String)
    (hN : 1 ≤ cfg.RETRY_ATTEMPTS) (hw : ∀ i, healthBad (w.health i) = true) :
    (init cfg w lg (mkSt c)).1 =
      Except.error "Initialization failed: Unable to fetch a valid token" ∧
    countHealth (init cfg w lg (mkSt c)).2.trace = cfg.RETRY_ATTEMPTS ∧
    countToken (init cfg w lg (mkSt c)).2.trace = 0 ∧
    (init cfg w lg (mkSt c)).2.trace =
      (if lg then [Event.logInfo "init() called, fetching auth token"] else []) ++
      (healthPermTrace lg cfg.RETRY_ATTEMPTS ++
        (if lg then
          [Event.logError "Failed to initialize RestAPIRelayPlugin after multiple attempts"]
          else [])) := by
  have hm := initLoop_permFail cfg w lg hw cfg.RETRY_ATTEMPTS
    (logL lg "init() called, fetching auth token" (mkSt c))
  have hstep : init cfg w lg (mkSt c) =
      (Except.error "Initialization failed: Unable to fetch a valid token",
       logE lg "Failed to initialize RestAPIRelayPlugin after multiple attempts"
         { logL lg "init() called, fetching auth token" (mkSt c) with
           nHealth := (logL lg "init() called, fetching auth token" (mkSt c)).nHealth +
             cfg.RETRY_ATTEMPTS,
           trace := (logL lg "init() called, fetching auth token" (mkSt c)).trace ++
             healthPermTrace lg cfg.RETRY_ATTEMPTS }) := by
    simp [init, hm]
  have htr : (init cfg w lg (mkSt c)).2.trace =
      (if lg then [Event.logInfo "init() called, fetching auth token"] else []) ++
      (healthPermTrace lg cfg.RETRY_ATTEMPTS ++
        (if lg then
          [Event.logError "Failed to initialize RestAPIRelayPlugin after multiple attempts"]
          else [])) := by
    rw [hstep]
    show (logE lg "Failed to initialize RestAPIRelayPlugin after multiple attempts"
      { logL lg "init() called, fetching auth token" (mkSt c) with
        nHealth := (logL lg "init() called, fetching auth token" (mkSt c)).nHealth +
          cfg.RETRY_ATTEMPTS,
        trace := (logL lg "init() called, fetching auth token" (mkSt c)).trace ++
          healthPermTrace lg cfg.RETRY_ATTEMPTS }).trace = _
    rw [logE_trace]
    show ((logL lg "init() called, fetching auth token" (mkSt c)).trace ++
      healthPermTrace lg cfg.RETRY_ATTEMPTS) ++ _ = _
    rw [logL_trace]
    simp [mkSt]
  refine ⟨by rw [hstep], ?_, ?_, htr⟩
  · rw [htr, countHealth_append, countHealth_append, countHealth_healthPermTrace]
    by_cases hlg : lg <;> simp [countHealth, List.filter, isHealth, hlg]
  · rw [htr, countToken_append, countToken_append, countToken_healthPermTrace]
    by_cases hlg : lg <;> simp [countToken, List.filter, isToken, hlg]

/-- Witness for claim C4 at a concrete retry budget of one and a health
endpoint that always resolves 500. -/
theorem claim_C4_witness :
    (1 ≤ cfg1.RETRY_ATTEMPTS) ∧
    (init cfg1 wHealth500 true (mkSt none)).1 =
      Except.error "Initialization failed: Unable to fetch a valid token" ∧
    countHealth (init cfg1 wHealth500 true (mkSt none)).2.trace = cfg1.RETRY_ATTEMPTS :=
  ⟨by decide,
   (claim_C4 cfg1 wHealth500 true none (by decide) (fun i => rfl)).1,
   (claim_C4 cfg1 wHealth500 true none (by decide) (fun i => rfl)).2.1⟩

/-- With at least one attempt available and a truthy first token response,
fetchToken returns that token after a single POST and caches it. -/
theorem fetchToken_first_ok (cfg : Config) (w : World) (lg : Bool) (s : St) (t1 : String)
    (hN : 1 ≤ cfg.RETRY_ATTEMPTS) (h : w.token s.nToken = Except.ok (some t1))
    (ht : t1 ≠ "") :
    fetchToken cfg w lg s =
      (Except.ok t1,
       { s with
         nToken := s.nToken + 1,
         cache := some t1,
         trace := s.trace ++ [Event.tokenPost, Event.cacheSet t1] }) := by
  obtain ⟨n, hn⟩ : ∃ n, cfg.RETRY_ATTEMPTS = n + 1 := ⟨cfg.RETRY_ATTEMPTS - 1, by omega⟩
  rw [fetchToken, hn]
  have ht2 : truthy (some t1) = true := by simp [truthy, ht]
  have hx := fetchTokenLoop_succ_ok_truthy cfg w lg n s (some t1) h ht2
  simpa using hx

/-- Claim C7: a destination response that resolves with any status other
than 401 (for example 500) makes sendData resolve successfully after a
single POST, with no token fetch: the send path only special-cases 401 and
performs no 2xx validation. -/
theorem claim_C7 (cfg : Config) (w : World) (lg : Bool) (tok : String) (data : Payload)
    (c : Option String) (status : Nat) (h : w.send 0 = Except.ok status)
    (h401 : status ≠ 401) :
    (sendData cfg w lg tok data (mkSt c)).1 = Except.ok () ∧
    countSend (sendData cfg w lg tok data (mkSt c)).2.trace = 1 ∧
    countToken (sendData cfg w lg tok data (mkSt c)).2.trace = 0 := by
  have h0 : w.send (mkSt c).nSend = Except.ok status := h
  have hsd := sendData_eq_ok cfg w lg tok data (mkSt c) status h0 h401
  refine ⟨by rw [hsd], ?_, ?_⟩
  · rw [hsd]
    show countSend (afterReq1 data tok (mkSt c)).trace = 1
    rw [afterReq1_trace]
    simp [mkSt, countSend, List.filter, isSend]
  · rw [hsd]
    show countToken (afterReq1 data tok (mkSt c)).trace = 0
    rw [afterReq1_trace]
    simp [mkSt, countToken, List.filter, isToken]

/-- Witness for claim C7: a destination that always resolves 500. -/
theorem claim_C7_witness :
    (sendData cfgC2 wDest500 true "cached" (Payload.str "x") (mkSt none)).1 =
      Except.ok () ∧
    countSend (sendData cfgC2 wDest500 true "cached" (Payload.str "x")
      (mkSt none)).2.trace = 1 :=
  ⟨(claim_C7 cfgC2 wDest500 true "cached" (Payload.str "x") none 500 rfl (by decide)).1,
   (claim_C7 cfgC2 wDest500 true "cached" (Payload.str "x") none 500 rfl (by decide)).2.1⟩

/-- Claim C5: every send request built by sendData carries the bearer
Authorization header for its token, carries the JSON Content-Type exactly
when the payload is a text string, and the first event of every sendData
run is that destination POST. -/
theorem claim_C5 (data : Payload) (t : String) (cfg : Config) (w : World) (lg : Bool)
    (c : Option String) :
    (requestHeaders data t).authorization = "Bearer " ++ t ∧
    ((requestHeaders data t).contentType = some "application/json" ↔
      data.isString = true) ∧
    (∃ rest, (sendData cfg w lg t data (mkSt c)).2.trace =
      Event.sendPost (requestHeaders data t) :: rest) := by
  refine ⟨rfl, ?_, ?_⟩
  · cases data <;> simp [requestHeaders, Payload.isString]
  · cases h : w.send (mkSt c).nSend with
    | error e =>
      rw [sendData_eq_throw cfg w lg t data (mkSt c) e h]
      refine ⟨(if lg then [Event.logError "Failed to send data"] else []), ?_⟩
      rw [logE_trace, afterReq1_trace]
      simp [mkSt]
    | ok status =>
      by_cases h401 : status = 401
      · subst h401
        obtain ⟨dF, hF1, hF2, hF3⟩ := fetchToken_delta cfg w lg (after401 lg data t (mkSt c))
        cases hf : (fetchToken cfg w lg (after401 lg data t (mkSt c))).1 with
        | error e =>
          rw [sendData_eq_401_fetchFail cfg w lg t data (mkSt c) e h hf]
          refine ⟨(if lg then [Event.logInfo "Unauthorized access - token may be invalid"]
            else []) ++ (dF ++ (if lg then [Event.logError "Failed to send data"] else [])),
            ?_⟩
          rw [logE_trace, hF1, after401_trace]
          simp [mkSt]
        | ok newToken =>
          cases h2 : w.send (fetchToken cfg w lg (after401 lg data t (mkSt c))).2.nSend with
          | ok st2 =>
            rw [sendData_eq_401_retry_ok cfg w lg t data (mkSt c) newToken st2 h hf h2]
            refine ⟨(if lg then [Event.logInfo "Unauthorized access - token may be invalid"]
              else []) ++ (dF ++ [Event.sendPost (requestHeaders data newToken)]), ?_⟩
            rw [afterReq1_trace, hF1, after401_trace]
            simp [mkSt]
          | error e =>
            rw [sendData_eq_401_retry_throw cfg w lg t data (mkSt c) newToken e h hf h2]
            refine ⟨(if lg then [Event.logInfo "Unauthorized access - token may be invalid"]
              else []) ++ (dF ++ ([Event.sendPost (requestHeaders data newToken)] ++
                (if lg then [Event.logError "Failed to send data"] else []))), ?_⟩
            rw [logE_trace, afterReq1_trace, hF1, after401_trace]
            simp [mkSt]
      · rw [sendData_eq_ok cfg w lg t data (mkSt c) status h h401]
        exact ⟨[], by rw [afterReq1_trace]; simp [mkSt]⟩

/-- Claim C1: when the first destination POST resolves 401 and the token
endpoint immediately yields a fresh truthy token, sendData logs the
unauthorized event, invokes the token fetcher once (a single token POST),
and issues exactly one retry POST carrying the fresh token; the retry
result is the final outcome (success on any resolution, the thrown error
on a throw) with no second 401-driven retry.  At the relay level, with a
cached token and a destination resolving 401 then anything, the call
succeeds overall with exactly two sends and one token re-fetch. -/
theorem claim_C1 (cfg : Config) (w : World) (lg tr : Bool) (data : Payload)
    (tok0 t1 : String) (hN : 1 ≤ cfg.RETRY_ATTEMPTS)
    (hsend0 : w.send 0 = Except.ok 401)
    (htok : w.token 0 = Except.ok (some t1)) (ht1 : t1 ≠ "") :
    (∀ st2, w.send 1 = Except.ok st2 →
      (sendData cfg w lg tok0 data (mkSt (some tok0))).1 = Except.ok () ∧
      List.filter isSend (sendData cfg w lg tok0 data (mkSt (some tok0))).2.trace =
        [Event.sendPost (requestHeaders data tok0),
         Event.sendPost (requestHeaders data t1)] ∧
      countToken (sendData cfg w lg tok0 data (mkSt (some tok0))).2.trace = 1 ∧
      (lg = true → Event.logInfo "Unauthorized access - token may be invalid" ∈
        (sendData cfg w lg tok0 data (mkSt (some tok0))).2.trace)) ∧
    (∀ e, w.send 1 = Except.error e →
      (sendData cfg w lg tok0 data (mkSt (some tok0))).1 = Except.error e ∧
      List.filter isSend (sendData cfg w lg tok0 data (mkSt (some tok0))).2.trace =
        [Event.sendPost (requestHeaders data tok0),
         Event.sendPost (requestHeaders data t1)]) ∧
    (∀ st2, w.send 1 = Except.ok st2 →
      (relay cfg w lg tr data (mkSt (some tok0))).1 = Except.ok () ∧
      countSend (relay cfg w lg tr data (mkSt (some tok0))).2.trace = 2 ∧
      countToken (relay cfg w lg tr data (mkSt (some tok0))).2.trace = 1) := by
  -- sendData level, from the initial state.
  have hA401 : w.send (mkSt (some tok0)).nSend = Except.ok 401 := hsend0
  have hAftTok : (after401 lg data tok0 (mkSt (some tok0))).nToken = 0 := by
    by_cases hlg : lg <;> simp [after401, afterReq1, logL, push, hlg, mkSt]
  have hF := fetchToken_first_ok cfg w lg (after401 lg data tok0 (mkSt (some tok0))) t1 hN
    (by rw [hAftTok]; exact htok) ht1
  have hf1 : (fetchToken cfg w lg (after401 lg data tok0 (mkSt (some tok0)))).1 =
      Except.ok t1 := by rw [hF]
  have hFtr : (fetchToken cfg w lg (after401 lg data tok0 (mkSt (some tok0)))).2.trace =
      (after401 lg data tok0 (mkSt (some tok0))).trace ++
        [Event.tokenPost, Event.cacheSet t1] := by rw [hF]
  have hSFn : (fetchToken cfg w lg (after401 lg data tok0 (mkSt (some tok0)))).2.nSend = 1 := by
    rw [hF]
    by_cases hlg : lg <;> simp [after401, afterReq1, logL, push, hlg, mkSt]
  -- relay level pieces.
  have hrel := relay_eq_cacheHit cfg w lg tr data (mkSt (some tok0)) tok0 rfl
  have hs2n : (startSp tr (startTx tr (logL lg "Relaying data"
      (mkSt (some tok0))))).nSend = 0 := by
    by_cases htr : tr <;> by_cases hlg : lg <;>
      simp [startSp, startTx, logL, push, htr, hlg, mkSt]
  have hB401 : w.send (startSp tr (startTx tr (logL lg "Relaying data"
      (mkSt (some tok0))))).nSend = Except.ok 401 := by rw [hs2n]; exact hsend0
  have hBAftTok : (after401 lg data tok0 (startSp tr (startTx tr (logL lg "Relaying data"
      (mkSt (some tok0)))))).nToken = 0 := by
    by_cases htr : tr <;> by_cases hlg : lg <;>
      simp [after401, afterReq1, startSp, startTx, logL, push, htr, hlg, mkSt]
  have hG := fetchToken_first_ok cfg w lg (after401 lg data tok0 (startSp tr (startTx tr
    (logL lg "Relaying data" (mkSt (some tok0)))))) t1 hN
    (by rw [hBAftTok]; exact htok) ht1
  have hg1 : (fetchToken cfg w lg (after401 lg data tok0 (startSp tr (startTx tr
      (logL lg "Relaying data" (mkSt (some tok0))))))).1 = Except.ok t1 := by rw [hG]
  have hGtr : (fetchToken cfg w lg (after401 lg data tok0 (startSp tr (startTx tr
      (logL lg "Relaying data" (mkSt (some tok0))))))).2.trace =
      (after401 lg data tok0 (startSp tr (startTx tr (logL lg "Relaying data"
        (mkSt (some tok0)))))).trace ++ [Event.tokenPost, Event.cacheSet t1] := by rw [hG]
  have hGn : (fetchToken cfg w lg (after401 lg data tok0 (startSp tr (startTx tr
      (logL lg "Relaying data" (mkSt (some tok0))))))).2.nSend = 1 := by
    rw [hG]
    by_cases htr : tr <;> by_cases hlg : lg <;>
      simp [after401, afterReq1, startSp, startTx, logL, push, htr, hlg, mkSt]
  refine ⟨?_, ?_, ?_⟩
  · intro st2 h2
    have h2x : w.send (fetchToken cfg w lg (after401 lg data tok0
        (mkSt (some tok0)))).2.nSend = Except.ok st2 := by rw [hSFn]; exact h2
    have hsd := sendData_eq_401_retry_ok cfg w lg tok0 data (mkSt (some tok0)) t1 st2
      hA401 hf1 h2x
    have htrace : (sendData cfg w lg tok0 data (mkSt (some tok0))).2.trace =
        [Event.sendPost (requestHeaders data tok0)] ++
        ((if lg then [Event.logInfo "Unauthorized access - token may be invalid"] else []) ++
          ([Event.tokenPost, Event.cacheSet t1] ++
            [Event.sendPost (requestHeaders data t1)])) := by
      rw [hsd]
      show (afterReq1 data t1 (fetchToken cfg w lg (after401 lg data tok0
        (mkSt (some tok0)))).2).trace = _
      rw [afterReq1_trace, hFtr, after401_trace]
      simp [mkSt]
    refine ⟨by rw [hsd], ?_, ?_, ?_⟩
    · rw [htrace]
      by_cases hlg : lg <;> simp [List.filter, isSend, hlg]
    · rw [htrace]
      by_cases hlg : lg <;> simp [countToken, List.filter, isToken, hlg]
    · intro hlg
      rw [htrace]
      simp [hlg]
  · intro e h2
    have h2x : w.send (fetchToken cfg w lg (after401 lg data tok0
        (mkSt (some tok0)))).2.nSend = Except.error e := by rw [hSFn]; exact h2
    have hsd := sendData_eq_401_retry_throw cfg w lg tok0 data (mkSt (some tok0)) t1 e
      hA401 hf1 h2x
    have htrace : (sendData cfg w lg tok0 data (mkSt (some tok0))).2.trace =
        [Event.sendPost (requestHeaders data tok0)] ++
        ((if lg then [Event.logInfo "Unauthorized access - token may be invalid"] else []) ++
          ([Event.tokenPost, Event.cacheSet t1] ++
            ([Event.sendPost (requestHeaders data t1)] ++
              (if lg then [Event.logError "Failed to send data"] else [])))) := by
      rw [hsd]
      show (logE lg "Failed to send data" (afterReq1 data t1 (fetchToken cfg w lg
        (after401 lg data tok0 (mkSt (some tok0)))).2)).trace = _
      rw [logE_trace, afterReq1_trace, hFtr, after401_trace]
      simp [mkSt]
    refine ⟨by rw [hsd], ?_⟩
    rw [htrace]
    by_cases hlg : lg <;> simp [List.filter, isSend, hlg]
  · intro st2 h2
    have h2x : w.send (fetchToken cfg w lg (after401 lg data tok0 (startSp tr (startTx tr
        (logL lg "Relaying data" (mkSt (some tok0))))))).2.nSend = Except.ok st2 := by
      rw [hGn]; exact h2
    have hsd := sendData_eq_401_retry_ok cfg w lg tok0 data (startSp tr (startTx tr
      (logL lg "Relaying data" (mkSt (some tok0))))) t1 st2 hB401 hg1 h2x
    have hrb := relayBody_eq_ok cfg w lg tr tok0 data
      (logL lg "Relaying data" (mkSt (some tok0))) (by rw [hsd])
    have htrace : (relay cfg w lg tr data (mkSt (some tok0))).2.trace =
        (if lg then [Event.logInfo "Relaying data"] else []) ++
        ((if tr then [Event.txStart] else []) ++
         ((if tr then [Event.spanStart] else []) ++
          ([Event.sendPost (requestHeaders data tok0)] ++
           ((if lg then [Event.logInfo "Unauthorized access - token may be invalid"]
             else []) ++
            ([Event.tokenPost, Event.cacheSet t1] ++
             ([Event.sendPost (requestHeaders data t1)] ++
              ((if tr then [Event.spanEnd] else []) ++
               (if tr then [Event.txEnd] else [])))))))) := by
      rw [hrel, hrb]
      show (endTx tr (endSp tr (sendData cfg w lg tok0 data (startSp tr (startTx tr
        (logL lg "Relaying data" (mkSt (some tok0)))))).2)).trace = _
      rw [endTx_trace, endSp_trace, hsd]
      show ((afterReq1 data t1 (fetchToken cfg w lg (after401 lg data tok0 (startSp tr
        (startTx tr (logL lg "Relaying data" (mkSt (some tok0))))))).2).trace ++ _) ++ _ = _
      rw [afterReq1_trace, hGtr, after401_trace, startSp_trace, startTx_trace, logL_trace]
      simp [mkSt]
    refine ⟨by rw [hrel, hrb], ?_, ?_⟩
    · rw [htrace]
      by_cases hlg : lg <;> by_cases htr : tr <;>
        simp [countSend, List.filter, isSend, hlg, htr]
    · rw [htrace]
      by_cases hlg : lg <;> by_cases htr : tr <;>
        simp [countToken, List.filter, isToken, hlg, htr]

/-- Witness for claim C1: cached token, destination resolving 401 then
200, token endpoint yielding the string fresh. -/
theorem claim_C1_witness :
    (relay cfgC2 wC1 true true (Payload.str "hello") (mkSt (some "cached"))).1 =
      Except.ok () ∧
    countSend (relay cfgC2 wC1 true true (Payload.str "hello")
      (mkSt (some "cached"))).2.trace = 2 ∧
    countToken (relay cfgC2 wC1 true true (Payload.str "hello")
      (mkSt (some "cached"))).2.trace = 1 :=
  (claim_C1 cfgC2 wC1 true true (Payload.str "hello") "cached" "fresh" (by decide)
    rfl rfl (by decide)).2.2 200 rfl

/-- World whose health endpoint always throws. -/
def wHealthThrow : World :=
  { health := fun _ => Except.error "ECONNABORTED",
    token := fun _ => Except.ok (some "tokT"),
    send := fun _ => Except.ok 200 }

/-- Claim C10: the init retry loop never retries past a thrown exception.
A throwing health GET ends the loop at once with that very error and no
further events; a throwing token POST (after a 200 health probe) does the
same; and init propagates a loop error unmodified, without raising its own
initialization error. -/
theorem claim_C10 (cfg : Config) (w : World) (lg : Bool) (s : St) (n : Nat) (e : String)
    (c : Option String) :
    (w.health s.nHealth = Except.error e →
      initLoop cfg w lg (n+1) s =
        (Except.error e,
         { s with
           nHealth := s.nHealth + 1,
           trace := s.trace ++ [Event.healthGet] })) ∧
    (w.health s.nHealth = Except.ok 200 → w.token s.nToken = Except.error e →
      initLoop cfg w lg (n+1) s =
        (Except.error e,
         { s with
           nHealth := s.nHealth + 1,
           nToken := s.nToken + 1,
           trace := s.trace ++ [Event.healthGet, Event.tokenPost] })) ∧
    (∀ s2, initLoop cfg w lg cfg.RETRY_ATTEMPTS
        (logL lg "init() called, fetching auth token" (mkSt c)) = (Except.error e, s2) →
      init cfg w lg (mkSt c) = (Except.error e, s2)) := by
  refine ⟨?_, ?_, ?_⟩
  · intro h
    exact initLoop_succ_health_throw cfg w lg n s e h
  · intro h h2
    exact initLoop_succ_token_throw cfg w lg n s e h h2
  · intro s2 hil
    simp [init, hil]

/-- Witness for claim C10: a health endpoint that throws on the first
probe ends the loop immediately with that error. -/
theorem claim_C10_witness :
    initLoop cfgC2 wHealthThrow true 1 (mkSt none) =
      (Except.error "ECONNABORTED",
       { mkSt none with nHealth := 1, trace := [Event.healthGet] }) :=
  (claim_C10 cfgC2 wHealthThrow true (mkSt none) 0 "ECONNABORTED" none).1 rfl

/-- True exactly when the token-resolution phase of relay succeeds: a
cache hit, or a successful fetchToken call on cache miss. -/
def relayTokenResolves (cfg : Config) (w : World) (lg : Bool) (c : Option String) : Bool :=
  match c with
  | some _ => true
  | none =>
    match (fetchToken cfg w lg (logL lg "Relaying data" (mkSt c))).1 with
    | Except.ok _ => true
    | Except.error _ => false

/-- Claim C6, amended: with a tracer present, every relay call ends
exactly as many transactions as it starts, and it ends the transaction
exactly once whenever the token-resolution phase succeeds (in particular
on every cache hit and on every call whose send phase runs, whether it
succeeds or throws); when the pre-transaction token fetch on a cache miss
fails, the call throws with zero transactions started or ended. -/
theorem claim_C6_amended (cfg : Config) (w : World) (lg : Bool) (data : Payload)
    (c : Option String) :
    countTxStart (relay cfg w lg true data (mkSt c)).2.trace =
      countTxEnd (relay cfg w lg true data (mkSt c)).2.trace ∧
    countTxEnd (relay cfg w lg true data (mkSt c)).2.trace =
      (if relayTokenResolves cfg w lg c then 1 else 0) := by
  cases c with
  | some token =>
    rw [relay_eq_cacheHit cfg w lg true data (mkSt (some token)) token rfl]
    obtain ⟨dS, hS1, hS2, _⟩ := sendData_delta cfg w lg token data
      (startSp true (startTx true (logL lg "Relaying data" (mkSt (some token)))))
    cases hsd : (sendData cfg w lg token data
        (startSp true (startTx true (logL lg "Relaying data" (mkSt (some token)))))).1 with
    | ok u =>
      cases u
      rw [relayBody_eq_ok cfg w lg true token data
        (logL lg "Relaying data" (mkSt (some token))) hsd]
      constructor <;>
      · show _ = _
        rw [endTx_trace, endSp_trace, hS1, startSp_trace, startTx_trace, logL_trace]
        simp only [countTxStart_append, countTxEnd_append,
          countTxStart_eq_zero hS2.2.1, countTxEnd_eq_zero hS2.2.2]
        by_cases hlg : lg <;>
          simp [relayTokenResolves, countTxStart, countTxEnd, List.filter,
            isTxStart, isTxEnd, mkSt, hlg]
    | error e =>
      rw [relayBody_eq_err cfg w lg true token data
        (logL lg "Relaying data" (mkSt (some token))) e hsd]
      constructor <;>
      · show _ = _
        rw [endTx_trace, logE_trace, hS1, startSp_trace, startTx_trace, logL_trace]
        simp only [countTxStart_append, countTxEnd_append,
          countTxStart_eq_zero hS2.2.1, countTxEnd_eq_zero hS2.2.2]
        by_cases hlg : lg <;>
          simp [relayTokenResolves, countTxStart, countTxEnd, List.filter,
            isTxStart, isTxEnd, mkSt, hlg]
  | none =>
    obtain ⟨dF, hF1, hF2, _⟩ := fetchToken_delta cfg w lg
      (logL lg "Relaying data" (mkSt none))
    cases hf : (fetchToken cfg w lg (logL lg "Relaying data" (mkSt none))).1 with
    | error e =>
      have hres : relayTokenResolves cfg w lg none = false := by
        simp [relayTokenResolves, hf]
      rw [relay_eq_missFetchFail cfg w lg true data (mkSt none) e rfl hf]
      constructor <;>
      · show _ = _
        rw [hF1, logL_trace]
        simp only [countTxStart_append, countTxEnd_append,
          countTxStart_eq_zero hF2.2.1, countTxEnd_eq_zero hF2.2.2]
        try rw [hres]
        by_cases hlg : lg <;>
          simp [countTxStart, countTxEnd, List.filter,
            isTxStart, isTxEnd, mkSt, hlg]
    | ok token =>
      have hres : relayTokenResolves cfg w lg none = true := by
        simp [relayTokenResolves, hf]
      rw [relay_eq_missFetchOk cfg w lg true data (mkSt none) token rfl hf]
      obtain ⟨dS, hS1, hS2, _⟩ := sendData_delta cfg w lg token data
        (startSp true (startTx true (fetchToken cfg w lg
          (logL lg "Relaying data" (mkSt none))).2))
      cases hsd : (sendData cfg w lg token data (startSp true (startTx true
          (fetchToken cfg w lg (logL lg "Relaying data" (mkSt none))).2))).1 with
      | ok u =>
        cases u
        rw [relayBody_eq_ok cfg w lg true token data
          (fetchToken cfg w lg (logL lg "Relaying data" (mkSt none))).2 hsd]
        constructor <;>
        · show _ = _
          rw [endTx_trace, endSp_trace, hS1, startSp_trace, startTx_trace, hF1, logL_trace]
          simp only [countTxStart_append, countTxEnd_append,
            countTxStart_eq_zero hS2.2.1, countTxEnd_eq_zero hS2.2.2,
            countTxStart_eq_zero hF2.2.1, countTxEnd_eq_zero hF2.2.2]
          try rw [hres]
          by_cases hlg : lg <;>
            simp [countTxStart, countTxEnd, List.filter,
              isTxStart, isTxEnd, mkSt, hlg]
      | error e =>
        rw [relayBody_eq_err cfg w lg true token data
          (fetchToken cfg w lg (logL lg "Relaying data" (mkSt none))).2 e hsd]
        constructor <;>
        · show _ = _
          rw [endTx_trace, logE_trace, hS1, startSp_trace, startTx_trace, hF1, logL_trace]
          simp only [countTxStart_append, countTxEnd_append,
            countTxStart_eq_zero hS2.2.1, countTxEnd_eq_zero hS2.2.2,
            countTxStart_eq_zero hF2.2.1, countTxEnd_eq_zero hF2.2.2]
          try rw [hres]
          by_cases hlg : lg <;>
            simp [countTxStart, countTxEnd, List.filter,
              isTxStart, isTxEnd, mkSt, hlg]

/-- Claim C9: every value ever written to the token cache — by init,
fetchToken, or relay including the post-401 recovery path — is a truthy
(non-empty) token string, and the cache afterwards is either its initial
content or such a truthy token. -/
theorem claim_C9 (cfg : Config) (w : World) (lg tr : Bool) (data : Payload)
    (c : Option String) :
    (∀ v, Event.cacheSet v ∈ (init cfg w lg (mkSt c)).2.trace → v ≠ "") ∧
    (∀ v, Event.cacheSet v ∈ (fetchToken cfg w lg (mkSt c)).2.trace → v ≠ "") ∧
    (∀ v, Event.cacheSet v ∈ (relay cfg w lg tr data (mkSt c)).2.trace → v ≠ "") ∧
    ((init cfg w lg (mkSt c)).2.cache = c ∨
      ∃ v, (init cfg w lg (mkSt c)).2.cache = some v ∧ v ≠ "") ∧
    ((fetchToken cfg w lg (mkSt c)).2.cache = c ∨
      ∃ v, (fetchToken cfg w lg (mkSt c)).2.cache = some v ∧ v ≠ "") ∧
    ((relay cfg w lg tr data (mkSt c)).2.cache = c ∨
      ∃ v, (relay cfg w lg tr data (mkSt c)).2.cache = some v ∧ v ≠ "") := by
  obtain ⟨dI, hI1, hI2, hI3⟩ := init_delta cfg w lg (mkSt c)
  obtain ⟨dF, hF1, hF2, hF3⟩ := fetchToken_delta cfg w lg (mkSt c)
  obtain ⟨dR, hR1, hR2, hR3⟩ := relay_delta cfg w lg tr data (mkSt c)
  have hI1x : (init cfg w lg (mkSt c)).2.trace = dI := by rw [hI1]; simp [mkSt]
  have hF1x : (fetchToken cfg w lg (mkSt c)).2.trace = dF := by rw [hF1]; simp [mkSt]
  have hR1x : (relay cfg w lg tr data (mkSt c)).2.trace = dR := by rw [hR1]; simp [mkSt]
  refine ⟨?_, ?_, ?_, hI3, hF3, hR3⟩
  · intro v hv
    rw [hI1x] at hv
    exact hI2.1 v hv
  · intro v hv
    rw [hF1x] at hv
    exact hF2.1 v hv
  · intro v hv
    rw [hR1x] at hv
    exact hR2 v hv

/-- Witness for claim C9 on the concrete init scenario: the cached value
tok1 recorded in the trace is non-empty, and the final cache is truthy. -/
theorem claim_C9_witness :
    ("tok1" ≠ "") ∧
    ((init cfgC2 wC2 true (mkSt none)).2.cache = none ∨
      ∃ v, (init cfgC2 wC2 true (mkSt none)).2.cache = some v ∧ v ≠ "") :=
  ⟨(claim_C9 cfgC2 wC2 true true (Payload.str "x") none).1 "tok1" (by decide),
   (claim_C9 cfgC2 wC2 true true (Payload.str "x") none).2.2.2.1⟩

/-- Observational equivalence of plugin states: same call counters, same
cache, and the same externally visible trace (log, transaction and span
events may differ). -/
def StEquiv (a b : St) : Prop :=
  a.nHealth = b.nHealth ∧ a.nToken = b.nToken ∧ a.nSend = b.nSend ∧
  a.cache = b.cache ∧ externals a.trace = externals b.trace

theorem StEquiv_refl (s : St) : StEquiv s s := ⟨rfl, rfl, rfl, rfl, rfl⟩

/-- Optionally pushing a non-external event on either side preserves
observational equivalence, whatever the two flags are. -/
theorem StEquiv_pushIf {e : Event} (he : isExternal e = false) (b1 b2 : Bool)
    {s1 s2 : St} (h : StEquiv s1 s2) :
    StEquiv (if b1 then push s1 e else s1) (if b2 then push s2 e else s2) := by
  obtain ⟨e1, e2, e3, e4, e5⟩ := h
  have he2 : externals [e] = [] := by simp [externals, List.filter, he]
  refine ⟨?_, ?_, ?_, ?_, ?_⟩ <;>
    by_cases h1 : b1 <;> by_cases h2 : b2 <;>
      simp [push, h1, h2, e1, e2, e3, e4, externals_append, he2, e5]

theorem StEquiv_logL (lg1 lg2 : Bool) (m : String) {s1 s2 : St} (h : StEquiv s1 s2) :
    StEquiv (logL lg1 m s1) (logL lg2 m s2) :=
  @StEquiv_pushIf (Event.logInfo m) rfl lg1 lg2 s1 s2 h

theorem StEquiv_logE (lg1 lg2 : Bool) (m : String) {s1 s2 : St} (h : StEquiv s1 s2) :
    StEquiv (logE lg1 m s1) (logE lg2 m s2) :=
  @StEquiv_pushIf (Event.logError m) rfl lg1 lg2 s1 s2 h

theorem StEquiv_startTx (tr1 tr2 : Bool) {s1 s2 : St} (h : StEquiv s1 s2) :
    StEquiv (startTx tr1 s1) (startTx tr2 s2) :=
  @StEquiv_pushIf Event.txStart rfl tr1 tr2 s1 s2 h

theorem StEquiv_startSp (tr1 tr2 : Bool) {s1 s2 : St} (h : StEquiv s1 s2) :
    StEquiv (startSp tr1 s1) (startSp tr2 s2) :=
  @StEquiv_pushIf Event.spanStart rfl tr1 tr2 s1 s2 h

theorem StEquiv_endSp (tr1 tr2 : Bool) {s1 s2 : St} (h : StEquiv s1 s2) :
    StEquiv (endSp tr1 s1) (endSp tr2 s2) :=
  @StEquiv_pushIf Event.spanEnd rfl tr1 tr2 s1 s2 h

theorem StEquiv_endTx (tr1 tr2 : Bool) {s1 s2 : St} (h : StEquiv s1 s2) :
    StEquiv (endTx tr1 s1) (endTx tr2 s2) :=
  @StEquiv_pushIf Event.txEnd rfl tr1 tr2 s1 s2 h

theorem StEquiv_failState (lg1 lg2 : Bool) (m : String) {s1 s2 : St} (h : StEquiv s1 s2) :
    StEquiv (failState lg1 m s1) (failState lg2 m s2) := by
  obtain ⟨e1, e2, e3, e4, e5⟩ := h
  refine ⟨e1, by simp [failState, e2], e3, e4, ?_⟩
  rw [failState_trace, failState_trace, externals_append, externals_append, e5]
  by_cases h1 : lg1 <;> by_cases h2 : lg2 <;>
    simp [externals, List.filter, isExternal, h1, h2]

theorem StEquiv_healthFailState (lg1 lg2 : Bool) {s1 s2 : St} (h : StEquiv s1 s2) :
    StEquiv (healthFailState lg1 s1) (healthFailState lg2 s2) := by
  obtain ⟨e1, e2, e3, e4, e5⟩ := h
  refine ⟨by simp [healthFailState, e1], e2, e3, e4, ?_⟩
  rw [healthFailState_trace, healthFailState_trace, externals_append, externals_append, e5]
  by_cases h1 : lg1 <;> by_cases h2 : lg2 <;>
    simp [externals, List.filter, isExternal, h1, h2]

theorem StEquiv_tokenInvalidState (lg1 lg2 : Bool) {s1 s2 : St} (h : StEquiv s1 s2) :
    StEquiv (tokenInvalidState lg1 s1) (tokenInvalidState lg2 s2) := by
  obtain ⟨e1, e2, e3, e4, e5⟩ := h
  refine ⟨by simp [tokenInvalidState, e1], by simp [tokenInvalidState, e2], e3, e4, ?_⟩
  rw [tokenInvalidState_trace, tokenInvalidState_trace,
    externals_append, externals_append, e5]
  by_cases h1 : lg1 <;> by_cases h2 : lg2 <;>
    simp [externals, List.filter, isExternal, h1, h2]

theorem StEquiv_afterReq1 (data : Payload) (tok : String) {s1 s2 : St}
    (h : StEquiv s1 s2) : StEquiv (afterReq1 data tok s1) (afterReq1 data tok s2) := by
  obtain ⟨e1, e2, e3, e4, e5⟩ := h
  refine ⟨e1, e2, by simp [afterReq1, e3], e4, ?_⟩
  simp [afterReq1, externals_append, e5]

theorem StEquiv_after401 (lg1 lg2 : Bool) (data : Payload) (tok : String) {s1 s2 : St}
    (h : StEquiv s1 s2) :
    StEquiv (after401 lg1 data tok s1) (after401 lg2 data tok s2) :=
  StEquiv_logL lg1 lg2 "Unauthorized access - token may be invalid"
    (StEquiv_afterReq1 data tok h)

/-- The fetchToken retry loop is observationally independent of the logger
flag: results agree and the final states stay equivalent. -/
theorem fetchTokenLoop_obs (cfg : Config) (w : World) (lg1 lg2 : Bool) :
    ∀ (n : Nat) {s1 s2 : St}, StEquiv s1 s2 →
      (fetchTokenLoop cfg w lg1 n s1).1 = (fetchTokenLoop cfg w lg2 n s2).1 ∧
      StEquiv (fetchTokenLoop cfg w lg1 n s1).2 (fetchTokenLoop cfg w lg2 n s2).2 := by
  intro n
  induction n with
  | zero =>
    intro s1 s2 h
    exact ⟨rfl, h⟩
  | succ n ih =>
    intro s1 s2 hEq
    obtain ⟨e1, e2, e3, e4, e5⟩ := hEq
    cases h : w.token s1.nToken with
    | ok d =>
      have h2 : w.token s2.nToken = Except.ok d := by rw [← e2]; exact h
      by_cases ht : truthy d = true
      · rw [fetchTokenLoop_succ_ok_truthy cfg w lg1 n s1 d h ht,
          fetchTokenLoop_succ_ok_truthy cfg w lg2 n s2 d h2 ht]
        refine ⟨rfl, ?_, ?_, ?_, ?_, ?_⟩ <;>
          simp [e1, e2, e3, e4, externals_append, e5]
      · rw [fetchTokenLoop_succ_ok_falsy cfg w lg1 n s1 d h ht,
          fetchTokenLoop_succ_ok_falsy cfg w lg2 n s2 d h2 ht]
        exact ih (StEquiv_failState lg1 lg2 "Invalid token response"
          ⟨e1, e2, e3, e4, e5⟩)
    | error e =>
      have h2 : w.token s2.nToken = Except.error e := by rw [← e2]; exact h
      rw [fetchTokenLoop_succ_error cfg w lg1 n s1 e h,
        fetchTokenLoop_succ_error cfg w lg2 n s2 e h2]
      exact ih (StEquiv_failState lg1 lg2 "Error fetching token" ⟨e1, e2, e3, e4, e5⟩)

/-- fetchToken is observationally independent of the logger flag. -/
theorem fetchToken_obs (cfg : Config) (w : World) (lg1 lg2 : Bool) {s1 s2 : St}
    (h : StEquiv s1 s2) :
    (fetchToken cfg w lg1 s1).1 = (fetchToken cfg w lg2 s2).1 ∧
    StEquiv (fetchToken cfg w lg1 s1).2 (fetchToken cfg w lg2 s2).2 :=
  fetchTokenLoop_obs cfg w lg1 lg2 cfg.RETRY_ATTEMPTS h

/-- The init retry loop is observationally independent of the logger flag. -/
theorem initLoop_obs (cfg : Config) (w : World) (lg1 lg2 : Bool) :
    ∀ (n : Nat) {s1 s2 : St}, StEquiv s1 s2 →
      (initLoop cfg w lg1 n s1).1 = (initLoop cfg w lg2 n s2).1 ∧
      StEquiv (initLoop cfg w lg1 n s1).2 (initLoop cfg w lg2 n s2).2 := by
  intro n
  induction n with
  | zero =>
    intro s1 s2 h
    exact ⟨rfl, h⟩
  | succ n ih =>
    intro s1 s2 hEq
    obtain ⟨e1, e2, e3, e4, e5⟩ := hEq
    cases h : w.health s1.nHealth with
    | error e =>
      have h2 : w.health s2.nHealth = Except.error e := by rw [← e1]; exact h
      rw [initLoop_succ_health_throw cfg w lg1 n s1 e h,
        initLoop_succ_health_throw cfg w lg2 n s2 e h2]
      refine ⟨rfl, ?_, ?_, ?_, ?_, ?_⟩ <;>
        simp [e1, e2, e3, e4, externals_append, e5]
    | ok st =>
      have h2 : w.health s2.nHealth = Except.ok st := by rw [← e1]; exact h
      by_cases hst : st = 200
      · subst hst
        cases htok : w.token s1.nToken with
        | error e =>
          have htok2 : w.token s2.nToken = Except.error e := by rw [← e2]; exact htok
          rw [initLoop_succ_token_throw cfg w lg1 n s1 e h htok,
            initLoop_succ_token_throw cfg w lg2 n s2 e h2 htok2]
          refine ⟨rfl, ?_, ?_, ?_, ?_, ?_⟩ <;>
            simp [e1, e2, e3, e4, externals_append, e5]
        | ok d =>
          have htok2 : w.token s2.nToken = Except.ok d := by rw [← e2]; exact htok
          by_cases ht : truthy d = true
          · rw [initLoop_succ_token_truthy cfg w lg1 n s1 d h htok ht,
              initLoop_succ_token_truthy cfg w lg2 n s2 d h2 htok2 ht]
            refine ⟨rfl, ?_, ?_, ?_, ?_, ?_⟩ <;>
              simp [e1, e2, e3, e4, externals_append, e5]
          · rw [initLoop_succ_token_falsy cfg w lg1 n s1 d h htok ht,
              initLoop_succ_token_falsy cfg w lg2 n s2 d h2 htok2 ht]
            exact ih (StEquiv_tokenInvalidState lg1 lg2 ⟨e1, e2, e3, e4, e5⟩)
      · rw [initLoop_succ_health_bad cfg w lg1 n s1 st h hst,
          initLoop_succ_health_bad cfg w lg2 n s2 st h2 hst]
        exact ih (StEquiv_healthFailState lg1 lg2 ⟨e1, e2, e3, e4, e5⟩)

/-- sendData is observationally independent of the logger flag. -/
theorem sendData_obs (cfg : Config) (w : World) (lg1 lg2 : Bool) (tok : String)
    (data : Payload) {s1 s2 : St} (hEq : StEquiv s1 s2) :
    (sendData cfg w lg1 tok data s1).1 = (sendData cfg w lg2 tok data s2).1 ∧
    StEquiv (sendData cfg w lg1 tok data s1).2 (sendData cfg w lg2 tok data s2).2 := by
  obtain ⟨e1, e2, e3, e4, e5⟩ := hEq
  have hA : StEquiv (after401 lg1 data tok s1) (after401 lg2 data tok s2) :=
    StEquiv_after401 lg1 lg2 data tok ⟨e1, e2, e3, e4, e5⟩
  obtain ⟨hfr, hfs⟩ := fetchToken_obs cfg w lg1 lg2 hA
  cases h : w.send s1.nSend with
  | error e =>
    have h2 : w.send s2.nSend = Except.error e := by rw [← e3]; exact h
    rw [sendData_eq_throw cfg w lg1 tok data s1 e h,
      sendData_eq_throw cfg w lg2 tok data s2 e h2]
    exact ⟨rfl, StEquiv_logE lg1 lg2 "Failed to send data"
      (StEquiv_afterReq1 data tok ⟨e1, e2, e3, e4, e5⟩)⟩
  | ok status =>
    have h2 : w.send s2.nSend = Except.ok status := by rw [← e3]; exact h
    by_cases h401 : status = 401
    · subst h401
      cases hf1 : (fetchToken cfg w lg1 (after401 lg1 data tok s1)).1 with
      | error e =>
        have hf2 : (fetchToken cfg w lg2 (after401 lg2 data tok s2)).1 =
            Except.error e := by rw [← hfr]; exact hf1
        rw [sendData_eq_401_fetchFail cfg w lg1 tok data s1 e h hf1,
          sendData_eq_401_fetchFail cfg w lg2 tok data s2 e h2 hf2]
        exact ⟨rfl, StEquiv_logE lg1 lg2 "Failed to send data" hfs⟩
      | ok newToken =>
        have hf2 : (fetchToken cfg w lg2 (after401 lg2 data tok s2)).1 =
            Except.ok newToken := by rw [← hfr]; exact hf1
        cases hr2 : w.send (fetchToken cfg w lg1 (after401 lg1 data tok s1)).2.nSend with
        | ok st2 =>
          have hr2b : w.send (fetchToken cfg w lg2
              (after401 lg2 data tok s2)).2.nSend = Except.ok st2 := by
            rw [← hfs.2.2.1]; exact hr2
          rw [sendData_eq_401_retry_ok cfg w lg1 tok data s1 newToken st2 h hf1 hr2,
            sendData_eq_401_retry_ok cfg w lg2 tok data s2 newToken st2 h2 hf2 hr2b]
          exact ⟨rfl, StEquiv_afterReq1 data newToken hfs⟩
        | error e =>
          have hr2b : w.send (fetchToken cfg w lg2
              (after401 lg2 data tok s2)).2.nSend = Except.error e := by
            rw [← hfs.2.2.1]; exact hr2
          rw [sendData_eq_401_retry_throw cfg w lg1 tok data s1 newToken e h hf1 hr2,
            sendData_eq_401_retry_throw cfg w lg2 tok data s2 newToken e h2 hf2 hr2b]
          exact ⟨rfl, StEquiv_logE lg1 lg2 "Failed to send data"
            (StEquiv_afterReq1 data newToken hfs)⟩
    · rw [sendData_eq_ok cfg w lg1 tok data s1 status h h401,
        sendData_eq_ok cfg w lg2 tok data s2 status h2 h401]
      exact ⟨rfl, StEquiv_afterReq1 data tok ⟨e1, e2, e3, e4, e5⟩⟩

/-- relayBody is observationally independent of the logger and tracer
flags. -/
theorem relayBody_obs (cfg : Config) (w : World) (lg1 tr1 lg2 tr2 : Bool) (tok : String)
    (data : Payload) {s1 s2 : St} (hEq : StEquiv s1 s2) :
    (relayBody cfg w lg1 tr1 tok data s1).1 = (relayBody cfg w lg2 tr2 tok data s2).1 ∧
    StEquiv (relayBody cfg w lg1 tr1 tok data s1).2
      (relayBody cfg w lg2 tr2 tok data s2).2 := by
  have hPre : StEquiv (startSp tr1 (startTx tr1 s1)) (startSp tr2 (startTx tr2 s2)) :=
    StEquiv_startSp tr1 tr2 (StEquiv_startTx tr1 tr2 hEq)
  obtain ⟨hsr, hss⟩ := sendData_obs cfg w lg1 lg2 tok data hPre
  cases hsd1 : (sendData cfg w lg1 tok data (startSp tr1 (startTx tr1 s1))).1 with
  | ok u =>
    cases u
    have hsd2 : (sendData cfg w lg2 tok data (startSp tr2 (startTx tr2 s2))).1 =
        Except.ok () := by rw [← hsr]; exact hsd1
    rw [relayBody_eq_ok cfg w lg1 tr1 tok data s1 hsd1,
      relayBody_eq_ok cfg w lg2 tr2 tok data s2 hsd2]
    exact ⟨rfl, StEquiv_endTx tr1 tr2 (StEquiv_endSp tr1 tr2 hss)⟩
  | error e =>
    have hsd2 : (sendData cfg w lg2 tok data (startSp tr2 (startTx tr2 s2))).1 =
        Except.error e := by rw [← hsr]; exact hsd1
    rw [relayBody_eq_err cfg w lg1 tr1 tok data s1 e hsd1,
      relayBody_eq_err cfg w lg2 tr2 tok data s2 e hsd2]
    exact ⟨rfl, StEquiv_endTx tr1 tr2
      (StEquiv_logE lg1 lg2 "Error relaying data" hss)⟩

/-- relay is observationally independent of the logger and tracer flags. -/
theorem relay_obs (cfg : Config) (w : World) (lg1 tr1 lg2 tr2 : Bool) (data : Payload)
    {s1 s2 : St} (hEq : StEquiv s1 s2) :
    (relay cfg w lg1 tr1 data s1).1 = (relay cfg w lg2 tr2 data s2).1 ∧
    StEquiv (relay cfg w lg1 tr1 data s1).2 (relay cfg w lg2 tr2 data s2).2 := by
  have hL : StEquiv (logL lg1 "Relaying data" s1) (logL lg2 "Relaying data" s2) :=
    StEquiv_logL lg1 lg2 "Relaying data" hEq
  obtain ⟨hfr, hfs⟩ := fetchToken_obs cfg w lg1 lg2 hL
  cases hc : s1.cache with
  | some token =>
    have hc2 : s2.cache = some token := by rw [← hEq.2.2.2.1]; exact hc
    rw [relay_eq_cacheHit cfg w lg1 tr1 data s1 token hc,
      relay_eq_cacheHit cfg w lg2 tr2 data s2 token hc2]
    exact relayBody_obs cfg w lg1 tr1 lg2 tr2 token data hL
  | none =>
    have hc2 : s2.cache = none := by rw [← hEq.2.2.2.1]; exact hc
    cases hf1 : (fetchToken cfg w lg1 (logL lg1 "Relaying data" s1)).1 with
    | error e =>
      have hf2 : (fetchToken cfg w lg2 (logL lg2 "Relaying data" s2)).1 =
          Except.error e := by rw [← hfr]; exact hf1
      rw [relay_eq_missFetchFail cfg w lg1 tr1 data s1 e hc hf1,
        relay_eq_missFetchFail cfg w lg2 tr2 data s2 e hc2 hf2]
      exact ⟨rfl, hfs⟩
    | ok token =>
      have hf2 : (fetchToken cfg w lg2 (logL lg2 "Relaying data" s2)).1 =
          Except.ok token := by rw [← hfr]; exact hf1
      rw [relay_eq_missFetchOk cfg w lg1 tr1 data s1 token hc hf1,
        relay_eq_missFetchOk cfg w lg2 tr2 data s2 token hc2 hf2]
      exact relayBody_obs cfg w lg1 tr1 lg2 tr2 token data hfs

/-- init is observationally independent of the logger flag. -/
theorem init_obs (cfg : Config) (w : World) (lg1 lg2 : Bool) {s1 s2 : St}
    (hEq : StEquiv s1 s2) :
    (init cfg w lg1 s1).1 = (init cfg w lg2 s2).1 ∧
    StEquiv (init cfg w lg1 s1).2 (init cfg w lg2 s2).2 := by
  have hL : StEquiv (logL lg1 "init() called, fetching auth token" s1)
      (logL lg2 "init() called, fetching auth token" s2) :=
    StEquiv_logL lg1 lg2 "init() called, fetching auth token" hEq
  obtain ⟨hlr, hls⟩ := initLoop_obs cfg w lg1 lg2 cfg.RETRY_ATTEMPTS hL
  rcases hil1 : initLoop cfg w lg1 cfg.RETRY_ATTEMPTS
      (logL lg1 "init() called, fetching auth token" s1) with ⟨r1, t1⟩
  rcases hil2 : initLoop cfg w lg2 cfg.RETRY_ATTEMPTS
      (logL lg2 "init() called, fetching auth token" s2) with ⟨r2, t2⟩
  rw [hil1, hil2] at hlr hls
  simp only at hlr hls
  subst hlr
  cases r1 with
  | error e =>
    have h1 : init cfg w lg1 s1 = (Except.error e, t1) := by simp [init, hil1]
    have h2 : init cfg w lg2 s2 = (Except.error e, t2) := by simp [init, hil2]
    rw [h1, h2]
    exact ⟨rfl, hls⟩
  | ok b =>
    cases b with
    | true =>
      have h1 : init cfg w lg1 s1 = (Except.ok (), t1) := by simp [init, hil1]
      have h2 : init cfg w lg2 s2 = (Except.ok (), t2) := by simp [init, hil2]
      rw [h1, h2]
      exact ⟨rfl, hls⟩
    | false =>
      have h1 : init cfg w lg1 s1 =
          (Except.error "Initialization failed: Unable to fetch a valid token",
           logE lg1 "Failed to initialize RestAPIRelayPlugin after multiple attempts"
             t1) := by simp [init, hil1]
      have h2 : init cfg w lg2 s2 =
          (Except.error "Initialization failed: Unable to fetch a valid token",
           logE lg2 "Failed to initialize RestAPIRelayPlugin after multiple attempts"
             t2) := by simp [init, hil2]
      rw [h1, h2]
      exact ⟨rfl, StEquiv_logE lg1 lg2
        "Failed to initialize RestAPIRelayPlugin after multiple attempts" hls⟩

/-- Claim C8: for every payload and every fixed behaviour of the external
endpoints, running relay or init with any combination of logger and tracer
present or absent produces the same outcome, the same sequence of
externally visible effects (HTTP calls, delays, cache writes), and the
same final cache: absent collaborators only suppress log, transaction and
span events. -/
theorem claim_C8 (cfg : Config) (w : World) (data : Payload) (c : Option String)
    (lg1 tr1 lg2 tr2 : Bool) :
    ((relay cfg w lg1 tr1 data (mkSt c)).1 = (relay cfg w lg2 tr2 data (mkSt c)).1 ∧
     externals (relay cfg w lg1 tr1 data (mkSt c)).2.trace =
       externals (relay cfg w lg2 tr2 data (mkSt c)).2.trace ∧
     (relay cfg w lg1 tr1 data (mkSt c)).2.cache =
       (relay cfg w lg2 tr2 data (mkSt c)).2.cache) ∧
    ((init cfg w lg1 (mkSt c)).1 = (init cfg w lg2 (mkSt c)).1 ∧
     externals (init cfg w lg1 (mkSt c)).2.trace =
       externals (init cfg w lg2 (mkSt c)).2.trace ∧
     (init cfg w lg1 (mkSt c)).2.cache = (init cfg w lg2 (mkSt c)).2.cache) := by
  obtain ⟨hr, hs⟩ := relay_obs cfg w lg1 tr1 lg2 tr2 data (StEquiv_refl (mkSt c))
  obtain ⟨hr2, hs2⟩ := init_obs cfg w lg1 lg2 (StEquiv_refl (mkSt c))
  exact ⟨⟨hr, hs.2.2.2.2, hs.2.2.2.1⟩, ⟨hr2, hs2.2.2.2.2, hs2.2.2.2.1⟩⟩

end RestRelay
